import Mathlib

/-!
A verification development for the `frakt` distributed fractal renderer.

The Rust sources are shallowly embedded as follows.

* 64-bit and 32-bit floats are modeled as exact rationals (`ℚ`).  All the
  numeric claims below (kernel output values and bounds, tile boundaries)
  concern quantities whose decimal literals and arithmetic are exact at the
  rational level; IEEE rounding, NaN and division-by-zero semantics are not
  modeled.
* The transcendental `f64` operations used by the kernels (`sin`, `cos`,
  `sinh`, `cosh`, `atan2`, and the constant `PI`) are passed around as an
  uninterpreted record `RealOps`; theorems about iteration counts hold for
  every interpretation of these operations.
* `u16`/`u32` quantities are modeled as `Nat`, with an explicit `% 2^32`
  exactly where the Rust code performs an `as u32` cast or a `u32` addition
  (the wire framing in `send_message`).
* The dispatcher (`server/src/main.rs`) is embedded as a step function on an
  explicit state.  `HashMap` is modeled as an association list whose insert
  replaces the previous binding of the key; `Vec::pop` pops the tail; the
  `rand` task-id generator is modeled by letting each incoming event carry
  the fresh id it would draw.  The `return` statements that leave the server
  thread and the final `break` after an image save are modeled by an `alive`
  flag: a step on a dead state does nothing.
* The server stores the decoded `f32` pixel values.  Since the dispatcher
  never computes with them, they are kept as their 32-bit big-endian words
  (`PixelIntensityBits`); the worker-side kernels produce rational-valued
  `PixelIntensity` records.
-/

namespace Frakt

/-- Complex number, from `complex_math/src/lib.rs` (`re`/`im` are `f64`). -/
structure Complex where
  re : ℚ
  im : ℚ
deriving DecidableEq, Repr

/-- `impl Add for Complex`. -/
def Complex.add (a b : Complex) : Complex := ⟨a.re + b.re, a.im + b.im⟩

/-- `impl Sub for Complex`. -/
def Complex.sub (a b : Complex) : Complex := ⟨a.re - b.re, a.im - b.im⟩

/-- `impl Mul for Complex`. -/
def Complex.mul (a b : Complex) : Complex :=
  ⟨a.re * b.re - a.im * b.im, a.re * b.im + a.im * b.re⟩

/-- `impl Mul<f64> for Complex`. -/
def Complex.mulF (a : Complex) (num : ℚ) : Complex := ⟨a.re * num, a.im * num⟩

/-- `impl Sub<f64> for Complex` (only the real part is reduced). -/
def Complex.subF (a : Complex) (num : ℚ) : Complex := ⟨a.re - num, a.im⟩

/-- `impl Div for Complex`, with the source's explicit quotient formula. -/
def Complex.div (a b : Complex) : Complex :=
  ⟨(a.re * b.re + a.im * b.im) / (b.re * b.re + b.im * b.im),
   (a.im * b.re - a.re * b.im) / (b.re * b.re + b.im * b.im)⟩

/-- `Complex::arg_sq`: squared modulus `re*re + im*im`. -/
def Complex.arg_sq (a : Complex) : ℚ := a.re * a.re + a.im * a.im

/-- Loop body of `Complex::pow`: `for _ in 1..num { result = result * self }`. -/
def Complex.powGo (z acc : Complex) : Nat → Complex
  | 0 => acc
  | k + 1 => Complex.powGo z (acc.mul z) k

/-- `Complex::pow`: integer power by repeated multiplication starting from
`result = self` (so `pow 0 = pow 1 = z`). -/
def Complex.pow (z : Complex) (num : Nat) : Complex := Complex.powGo z z (num - 1)

/-- Uninterpreted models for the `f64` transcendental functions and `PI`
used by the kernels. -/
structure RealOps where
  sin : ℚ → ℚ
  cos : ℚ → ℚ
  sinh : ℚ → ℚ
  cosh : ℚ → ℚ
  atan2 : ℚ → ℚ → ℚ
  pi : ℚ

/-- `Complex::sin`: `(sin re * cosh im, cos re * sinh im)`. -/
def Complex.csin (ops : RealOps) (z : Complex) : Complex :=
  ⟨ops.sin z.re * ops.cosh z.im, ops.cos z.re * ops.sinh z.im⟩

/-- `Complex::arg`: `self.im.atan2(self.re)`. -/
def Complex.arg (ops : RealOps) (z : Complex) : ℚ := ops.atan2 z.im z.re

/-- Fuel-indexed while loop.  A Rust loop `while count < max_iter && test { body }`
whose counter starts at `0` and increases by one per iteration is run as
`runWhile test body max_iter s₀`: the fuel argument realizes the
`count < max_iter` conjunct of the guard exactly. -/
def runWhile {σ : Type} (test : σ → Bool) (body : σ → σ) : Nat → σ → σ
  | 0, s => s
  | fuel + 1, s => if test s then runWhile test body fuel (body s) else s

/-- `julia` from `shared/src/fractal_implementation/fractal_calcul.rs`.
State is `(zn, count)`; the guard is `count < max_iter && zn.arg_sq() < max_divergence`. -/
def julia (z c : Complex) (max_divergence : ℚ) (max_iter : Nat) : ℚ × ℚ :=
  let r := runWhile (fun s => decide (s.1.arg_sq < max_divergence))
      (fun s => ((s.1.pow 2).add c, s.2 + 1)) max_iter ((z, 0) : Complex × Nat)
  (r.1.arg_sq / max_divergence, (r.2 : ℚ) / (max_iter : ℚ))

/-- `mandelbrot`: `z₀ = 0`, guard `zn.arg_sq() < 4 && count < max_iter`. -/
def mandelbrot (pixel_complexe : Complex) (max_iter : Nat) : ℚ × ℚ :=
  let c := pixel_complexe
  let r := runWhile (fun s => decide (s.1.arg_sq < 4))
      (fun s => ((s.1.pow 2).add c, s.2 + 1)) max_iter (((⟨0, 0⟩ : Complex), 0) : Complex × Nat)
  (r.1.arg_sq / 4, (r.2 : ℚ) / (max_iter : ℚ))

/-- `iterated_sin_z`: guard `zn.arg_sq() < 50 && count < max_iter`,
body `zn = zn.sin() * c`; returned `zn` is `arg_sq / 4`. -/
def iterated_sin_z (ops : RealOps) (z c : Complex) (max_iter : Nat) : ℚ × ℚ :=
  let r := runWhile (fun s => decide (s.1.arg_sq < 50))
      (fun s => ((Complex.csin ops s.1).mul c, s.2 + 1)) max_iter ((z, 0) : Complex × Nat)
  (r.1.arg_sq / 4, (r.2 : ℚ) / (max_iter : ℚ))

/-- `newton_raphson_z_3`: state `(zn, previous_zn, count)`, `previous_zn₀ = 0`,
guard `(zn - previous_zn).arg_sq() > 1e-6 && count < max_iter`,
body `zn = zn - (zn.pow(3) - 1.0) / (zn.pow(2) * 3.0)`. -/
def newton_raphson_z_3 (ops : RealOps) (z : Complex) (max_iter : Nat) : ℚ × ℚ :=
  let r := runWhile (fun s => decide ((1 : ℚ) / 1000000 < (Complex.sub s.1 s.2.1).arg_sq))
      (fun s => (s.1.sub (((s.1.pow 3).subF 1).div ((s.1.pow 2).mulF 3)), s.1, s.2.2 + 1))
      max_iter ((z, (⟨0, 0⟩ : Complex), 0) : Complex × Complex × Nat)
  (1 / 2 + Complex.arg ops r.1 / (2 * ops.pi), (r.2.2 : ℚ) / (max_iter : ℚ))

/-- `newton_raphson_z_4`: as `newton_raphson_z_3` with
`zn = zn - (zn.pow(4) - 1.0) / (zn.pow(3) * 4.0)`. -/
def newton_raphson_z_4 (ops : RealOps) (z : Complex) (max_iter : Nat) : ℚ × ℚ :=
  let r := runWhile (fun s => decide ((1 : ℚ) / 1000000 < (Complex.sub s.1 s.2.1).arg_sq))
      (fun s => (s.1.sub (((s.1.pow 4).subF 1).div ((s.1.pow 3).mulF 4)), s.1, s.2.2 + 1))
      max_iter ((z, (⟨0, 0⟩ : Complex), 0) : Complex × Complex × Nat)
  (1 / 2 + Complex.arg ops r.1 / (2 * ops.pi), (r.2.2 : ℚ) / (max_iter : ℚ))

/-- `nova_newton_raphson_z_3`: `zn₀ = 1`, `c = pixel`,
body `zn = c + zn - (zn.pow(3) - 1.0) / (zn.pow(2) * 3.0)`; returned `zn` is `0`. -/
def nova_newton_raphson_z_3 (pixel_complexe : Complex) (max_iter : Nat) : ℚ × ℚ :=
  let c := pixel_complexe
  let r := runWhile (fun s => decide ((1 : ℚ) / 1000000 < (Complex.sub s.1 s.2.1).arg_sq))
      (fun s => ((c.add s.1).sub (((s.1.pow 3).subF 1).div ((s.1.pow 2).mulF 3)), s.1, s.2.2 + 1))
      max_iter (((⟨1, 0⟩ : Complex), (⟨0, 0⟩ : Complex), 0) : Complex × Complex × Nat)
  (0, (r.2.2 : ℚ) / (max_iter : ℚ))

/-- `nova_newton_raphson_z_4`: as `nova_newton_raphson_z_3` with fourth powers. -/
def nova_newton_raphson_z_4 (pixel_complexe : Complex) (max_iter : Nat) : ℚ × ℚ :=
  let c := pixel_complexe
  let r := runWhile (fun s => decide ((1 : ℚ) / 1000000 < (Complex.sub s.1 s.2.1).arg_sq))
      (fun s => ((c.add s.1).sub (((s.1.pow 4).subF 1).div ((s.1.pow 3).mulF 4)), s.1, s.2.2 + 1))
      max_iter (((⟨1, 0⟩ : Complex), (⟨0, 0⟩ : Complex), 0) : Complex × Complex × Nat)
  (0, (r.2.2 : ℚ) / (max_iter : ℚ))

/-- `Point` (`f64` coordinates in the fractal plane). -/
structure Point where
  x : ℚ
  y : ℚ
deriving DecidableEq, Repr

/-- `Range`: axis-aligned rectangle. -/
structure Range where
  min : Point
  max : Point
deriving DecidableEq, Repr

/-- `Resolution` (`nx`, `ny` are `u16`). -/
structure Resolution where
  nx : Nat
  ny : Nat
deriving DecidableEq, Repr

/-- `U8Data` (`offset`, `count` are `u32`). -/
structure U8Data where
  offset : Nat
  count : Nat
deriving DecidableEq, Repr

/-- `PixelData` (`offset`, `count` are `u32`), used by `FragmentResult.pixels`. -/
structure PixelData where
  offset : Nat
  count : Nat
deriving DecidableEq, Repr

/-- `FractalDescriptor` with each variant's parameter struct inlined
(`JuliaDescriptor { c, divergence_threshold_square }`, `IteratedSinZ { c }`,
the rest parameterless). -/
inductive FractalDescriptor where
  | julia (c : Complex) (divergence_threshold_square : ℚ)
  | mandelbrot
  | iteratedSinZ (c : Complex)
  | newtonRaphsonZ3
  | newtonRaphsonZ4
  | novaNewtonRaphsonZ3
  | novaNewtonRaphsonZ4
deriving DecidableEq, Repr

/-- `FragmentTask` from `shared/src/messages/message.rs`. -/
structure FragmentTask where
  id : U8Data
  fractal : FractalDescriptor
  max_iteration : Nat
  resolution : Resolution
  range : Range
deriving DecidableEq, Repr

/-- `FragmentRequest`. -/
structure FragmentRequest where
  worker_name : String
  maximal_work_load : Nat
deriving DecidableEq, Repr

/-- `FragmentResult`. -/
structure FragmentResult where
  id : U8Data
  resolution : Resolution
  range : Range
  pixels : PixelData
deriving DecidableEq, Repr

/-- `Fragment`: the tagged message envelope. -/
inductive Fragment where
  | result (r : FragmentResult)
  | request (r : FragmentRequest)
  | task (t : FragmentTask)
deriving DecidableEq, Repr

/-- `PixelIntensity` as produced by the worker-side kernels: two `f32`
values, modeled as rationals. -/
structure PixelIntensity where
  zn : ℚ
  count : ℚ
deriving DecidableEq, Repr

/-- `PixelIntensity` as stored by the dispatcher after decoding a result
payload: `f32::from_be_bytes` is modeled by keeping the 32-bit big-endian
word itself, since the dispatcher only stores and counts these records. -/
structure PixelIntensityBits where
  zn : Nat
  count : Nat
deriving DecidableEq, Repr

/-- Big-endian 32-bit word from four payload bytes (the bit pattern handed
to `f32::from_be_bytes`). -/
def word_from_be_bytes (b0 b1 b2 b3 : Nat) : Nat :=
  b0 * 16777216 + b1 * 65536 + b2 * 256 + b3

/-- `format_data_to_pixel_intensity_vector` from
`server/src/server_services/server.rs`: `chunks_exact(8)` silently discards
a trailing partial chunk. -/
def format_data_to_pixel_intensity_vector : List Nat → List PixelIntensityBits
  | b0 :: b1 :: b2 :: b3 :: b4 :: b5 :: b6 :: b7 :: rest =>
      ⟨word_from_be_bytes b0 b1 b2 b3, word_from_be_bytes b4 b5 b6 b7⟩ ::
        format_data_to_pixel_intensity_vector rest
  | _ => []

/-- `IteratedSinZ::get_datas` from `shared/src/fractal_types/iterated_sin_z.rs`
(the `rayon` parallel map is order-preserving, so it is a plain map here). -/
def IteratedSinZ_get_datas (ops : RealOps) (c : Complex) (task : FragmentTask) :
    List PixelIntensity :=
  let x_start := task.range.min.x
  let x_end := task.range.max.x
  let y_start := task.range.min.y
  let y_end := task.range.max.y
  let number_of_pixels := task.resolution.nx * task.resolution.ny
  let x_step := (x_end - x_start) / (task.resolution.nx : ℚ)
  let y_step := (y_end - y_start) / (task.resolution.ny : ℚ)
  let max_iteration := task.max_iteration
  (List.range number_of_pixels).map (fun i =>
    let x := x_start + ((i % task.resolution.ny : Nat) : ℚ) * x_step
    let y := y_start + ((i / task.resolution.ny : Nat) : ℚ) * y_step
    let pixel_complexe : Complex := ⟨x, y⟩
    let fractal_result := iterated_sin_z ops pixel_complexe c max_iteration
    ⟨fractal_result.1, fractal_result.2⟩)

/-- `NovaNewtonRaphsonZ4::get_datas` from
`shared/src/fractal_types/nova_newton_raphson_z_4.rs`. -/
def NovaNewtonRaphsonZ4_get_datas (task : FragmentTask) : List PixelIntensity :=
  let x_start := task.range.min.x
  let x_end := task.range.max.x
  let y_start := task.range.min.y
  let y_end := task.range.max.y
  let number_of_pixels := task.resolution.nx * task.resolution.ny
  let x_step := (x_end - x_start) / (task.resolution.nx : ℚ)
  let y_step := (y_end - y_start) / (task.resolution.ny : ℚ)
  let max_iteration := task.max_iteration
  (List.range number_of_pixels).map (fun i =>
    let x := x_start + ((i % task.resolution.ny : Nat) : ℚ) * x_step
    let y := y_start + ((i / task.resolution.ny : Nat) : ℚ) * y_step
    let pixel_complexe : Complex := ⟨x, y⟩
    let fractal_result := nova_newton_raphson_z_4 pixel_complexe max_iteration
    ⟨fractal_result.1, fractal_result.2⟩)

/-- Modelled from the spec: the `get_datas` implementation for the Julia
kernel is not under `src/`; per the spec every kernel walks the tile in the
same scan order (`x = x_min + (i mod ny)·Δx`, `y = y_min + (i div ny)·Δy`)
and calls its kernel with the descriptor's parameters. -/
def Julia_get_datas (c : Complex) (divergence_threshold_square : ℚ)
    (task : FragmentTask) : List PixelIntensity :=
  let x_start := task.range.min.x
  let x_end := task.range.max.x
  let y_start := task.range.min.y
  let y_end := task.range.max.y
  let number_of_pixels := task.resolution.nx * task.resolution.ny
  let x_step := (x_end - x_start) / (task.resolution.nx : ℚ)
  let y_step := (y_end - y_start) / (task.resolution.ny : ℚ)
  let max_iteration := task.max_iteration
  (List.range number_of_pixels).map (fun i =>
    let x := x_start + ((i % task.resolution.ny : Nat) : ℚ) * x_step
    let y := y_start + ((i / task.resolution.ny : Nat) : ℚ) * y_step
    let pixel_complexe : Complex := ⟨x, y⟩
    let fractal_result := julia pixel_complexe c divergence_threshold_square max_iteration
    ⟨fractal_result.1, fractal_result.2⟩)

/-- Modelled from the spec: the `get_datas` implementation for the
Mandelbrot kernel is not under `src/`; same scan order as the rest. -/
def Mandelbrot_get_datas (task : FragmentTask) : List PixelIntensity :=
  let x_start := task.range.min.x
  let x_end := task.range.max.x
  let y_start := task.range.min.y
  let y_end := task.range.max.y
  let number_of_pixels := task.resolution.nx * task.resolution.ny
  let x_step := (x_end - x_start) / (task.resolution.nx : ℚ)
  let y_step := (y_end - y_start) / (task.resolution.ny : ℚ)
  let max_iteration := task.max_iteration
  (List.range number_of_pixels).map (fun i =>
    let x := x_start + ((i % task.resolution.ny : Nat) : ℚ) * x_step
    let y := y_start + ((i / task.resolution.ny : Nat) : ℚ) * y_step
    let pixel_complexe : Complex := ⟨x, y⟩
    let fractal_result := mandelbrot pixel_complexe max_iteration
    ⟨fractal_result.1, fractal_result.2⟩)

/-- Modelled from the spec: the `get_datas` implementation for the
NewtonRaphsonZ3 kernel is not under `src/`; same scan order as the rest. -/
def NewtonRaphsonZ3_get_datas (ops : RealOps) (task : FragmentTask) : List PixelIntensity :=
  let x_start := task.range.min.x
  let x_end := task.range.max.x
  let y_start := task.range.min.y
  let y_end := task.range.max.y
  let number_of_pixels := task.resolution.nx * task.resolution.ny
  let x_step := (x_end - x_start) / (task.resolution.nx : ℚ)
  let y_step := (y_end - y_start) / (task.resolution.ny : ℚ)
  let max_iteration := task.max_iteration
  (List.range number_of_pixels).map (fun i =>
    let x := x_start + ((i % task.resolution.ny : Nat) : ℚ) * x_step
    let y := y_start + ((i / task.resolution.ny : Nat) : ℚ) * y_step
    let pixel_complexe : Complex := ⟨x, y⟩
    let fractal_result := newton_raphson_z_3 ops pixel_complexe max_iteration
    ⟨fractal_result.1, fractal_result.2⟩)

/-- Modelled from the spec: the `get_datas` implementation for the
NewtonRaphsonZ4 kernel is not under `src/`; same scan order as the rest. -/
def NewtonRaphsonZ4_get_datas (ops : RealOps) (task : FragmentTask) : List PixelIntensity :=
  let x_start := task.range.min.x
  let x_end := task.range.max.x
  let y_start := task.range.min.y
  let y_end := task.range.max.y
  let number_of_pixels := task.resolution.nx * task.resolution.ny
  let x_step := (x_end - x_start) / (task.resolution.nx : ℚ)
  let y_step := (y_end - y_start) / (task.resolution.ny : ℚ)
  let max_iteration := task.max_iteration
  (List.range number_of_pixels).map (fun i =>
    let x := x_start + ((i % task.resolution.ny : Nat) : ℚ) * x_step
    let y := y_start + ((i / task.resolution.ny : Nat) : ℚ) * y_step
    let pixel_complexe : Complex := ⟨x, y⟩
    let fractal_result := newton_raphson_z_4 ops pixel_complexe max_iteration
    ⟨fractal_result.1, fractal_result.2⟩)

/-- Modelled from the spec: the `get_datas` implementation for the
NovaNewtonRaphsonZ3 kernel is not under `src/`; same scan order as the rest. -/
def NovaNewtonRaphsonZ3_get_datas (task : FragmentTask) : List PixelIntensity :=
  let x_start := task.range.min.x
  let x_end := task.range.max.x
  let y_start := task.range.min.y
  let y_end := task.range.max.y
  let number_of_pixels := task.resolution.nx * task.resolution.ny
  let x_step := (x_end - x_start) / (task.resolution.nx : ℚ)
  let y_step := (y_end - y_start) / (task.resolution.ny : ℚ)
  let max_iteration := task.max_iteration
  (List.range number_of_pixels).map (fun i =>
    let x := x_start + ((i % task.resolution.ny : Nat) : ℚ) * x_step
    let y := y_start + ((i / task.resolution.ny : Nat) : ℚ) * y_step
    let pixel_complexe : Complex := ⟨x, y⟩
    let fractal_result := nova_newton_raphson_z_3 pixel_complexe max_iteration
    ⟨fractal_result.1, fractal_result.2⟩)

/-- Plane point for pixel index `i`, written from the spec's words:
`x = x_min + (i mod ny)·Δx`, `y = y_min + (i div ny)·Δy` with
`Δx = (x_max−x_min)/nx`, `Δy = (y_max−y_min)/ny`. -/
def scanPointSpec (task : FragmentTask) (i : Nat) : Complex :=
  ⟨task.range.min.x + ((i % task.resolution.ny : Nat) : ℚ) *
      ((task.range.max.x - task.range.min.x) / (task.resolution.nx : ℚ)),
   task.range.min.y + ((i / task.resolution.ny : Nat) : ℚ) *
      ((task.range.max.y - task.range.min.y) / (task.resolution.ny : ℚ))⟩

/-- The seven fractal names accepted by the dispatcher CLI. -/
inductive FractalName where
  | Julia
  | Mandelbrot
  | IteratedSinZ
  | NewtonRaphsonZ3
  | NewtonRaphsonZ4
  | NovaNewtonRaphsonZ3
  | NovaNewtonRaphsonZ4
deriving DecidableEq, Repr

/-- Descriptor literal placed in the generated tasks by each
`create_params_for_*` function in `server/src/main.rs`. -/
def descriptorFor : FractalName → FractalDescriptor
  | .Julia => .julia ⟨285/1000, 13/1000⟩ 4
  | .Mandelbrot => .mandelbrot
  | .IteratedSinZ => .iteratedSinZ ⟨1, 3/10⟩
  | .NewtonRaphsonZ3 => .newtonRaphsonZ3
  | .NewtonRaphsonZ4 => .newtonRaphsonZ4
  | .NovaNewtonRaphsonZ3 => .novaNewtonRaphsonZ3
  | .NovaNewtonRaphsonZ4 => .novaNewtonRaphsonZ4

/-- Mutable cursor of a `create_params_for_*` loop (`min_x`, `min_y`,
`max_x`, `max_y`). -/
structure TileCursor where
  min_x : ℚ
  min_y : ℚ
  max_x : ℚ
  max_y : ℚ
deriving DecidableEq, Repr

/-- Cursor update at the end of each `create_params_for_*` loop iteration. -/
def tileCursorStep (step_size_x step_size_y : ℚ) (s : TileCursor) : TileCursor :=
  let min_x := s.max_x
  if min_x < 12/10 then
    { s with min_x := min_x, max_x := s.max_x + step_size_x }
  else
    { min_x := -(12/10), max_x := -(6/10), min_y := s.max_y, max_y := s.max_y + step_size_y }

/-- Loop of a `create_params_for_*` function: push a task, update the cursor. -/
def create_params_go (fr : FractalDescriptor) (sx sy : ℚ) :
    Nat → TileCursor → List FragmentTask
  | 0, _ => []
  | n + 1, s =>
    { id := ⟨0, 16⟩, fractal := fr, max_iteration := 64, resolution := ⟨300, 300⟩,
      range := ⟨⟨s.min_x, s.min_y⟩, ⟨s.max_x, s.max_y⟩⟩ } ::
      create_params_go fr sx sy n (tileCursorStep sx sy s)

/-- Common body of the seven `create_params_for_*` functions in
`server/src/main.rs` (they are textually identical up to the descriptor
literal): 16 iterations from `(-1.2, -1.2, -0.6, -0.6)` with step sizes
`(1.2 - (-1.2)) / 4.0`. -/
def create_params_for (fr : FractalDescriptor) : List FragmentTask :=
  create_params_go fr ((12/10 - (-(12/10))) / 4) ((12/10 - (-(12/10))) / 4) 16
    ⟨-(12/10), -(12/10), -(6/10), -(6/10)⟩

/-- Dispatch on the fractal name as in the `match fractal_to_calcul.as_str()`
of `main`. -/
def paramsFor (name : FractalName) : List FragmentTask :=
  create_params_for (descriptorFor name)

/-- The 4×4 row-major tile grid as the spec words it: tile `i` occupies
column `i mod 4` and row `i div 4` of `[−1.2, 1.2]²`, each tile `0.6×0.6`,
resolution 300×300, `max_iteration = 64`, `id = U8Data{0, 16}`. -/
def expectedTile (name : FractalName) (i : Fin 16) : FragmentTask :=
  let col : ℚ := (((i : Nat) % 4 : Nat) : ℚ)
  let row : ℚ := (((i : Nat) / 4 : Nat) : ℚ)
  { id := ⟨0, 16⟩, fractal := descriptorFor name, max_iteration := 64,
    resolution := ⟨300, 300⟩,
    range := ⟨⟨-(12/10) + (6/10) * col, -(12/10) + (6/10) * row⟩,
              ⟨-(12/10) + (6/10) * col + 6/10, -(12/10) + (6/10) * row + 6/10⟩⟩ }

/-- Open interior of a task's plane range. -/
def insideInterior (t : FragmentTask) (x y : ℚ) : Prop :=
  t.range.min.x < x ∧ x < t.range.max.x ∧ t.range.min.y < y ∧ y < t.range.max.y

/-- Association-list model of `HashMap<Vec<u8>, V>`; keys are byte vectors. -/
def alLookup {α : Type} (k : List Nat) : List (List Nat × α) → Option α
  | [] => none
  | (k', v) :: rest => if k = k' then some v else alLookup k rest

/-- `HashMap::insert`: binds `k` to `v`, replacing any previous binding. -/
def alInsert {α : Type} (k : List Nat) (v : α) (m : List (List Nat × α)) :
    List (List Nat × α) :=
  (k, v) :: m.filter (fun p => decide (p.1 ≠ k))

/-- `HashMap::len` (number of bound keys). -/
def alSize {α : Type} (m : List (List Nat × α)) : Nat := m.length

/-- `Vec::pop`: removes and returns the last element. -/
def vecPop {α : Type} (l : List α) : Option (α × List α) :=
  match l.getLast? with
  | none => none
  | some x => some (x, l.dropLast)

/-- `FractalCalculState` from `server/src/main.rs`, plus an `alive` flag
modeling whether the server thread is still in its event loop (`return`
and `break` set it to false). -/
structure FractalCalculState where
  params : List FragmentTask
  tasks_state : List (List Nat × FragmentTask)
  calcul_state : List (List Nat × List PixelIntensityBits)
  alive : Bool
deriving DecidableEq, Repr

/-- Reply sent back through the per-connection channel:
`(Fragment::FragmentTask(task), id)`. -/
structure Reply where
  task : FragmentTask
  id : List Nat
deriving DecidableEq, Repr

/-- Observable output of one event-loop iteration: the optional reply and
whether the full image was saved in this iteration. -/
structure Output where
  reply : Option Reply
  saved : Bool
deriving DecidableEq, Repr

/-- Output of an iteration that neither replies nor saves. -/
def Output.silent : Output := ⟨none, false⟩

/-- One event received over the dispatcher channel.  `fresh_id` carries the
id(s) that `generate_unique_id` would draw in this iteration (16 random
bytes in the source). -/
inductive Event where
  | request (fresh_id : List Nat)
  | result (res : FragmentResult) (datas : List Nat) (fresh_id : List Nat)
deriving DecidableEq, Repr

/-- End of a loop iteration that fell through the `match`: if
`calcul_state.len() == 16`, save the image and `break`.  `early` is true
when the branch ended in `return`, which skips this check. -/
def finishStep (s : FractalCalculState) (out : Output) (early : Bool) :
    FractalCalculState × Output :=
  if early then (s, out)
  else if alSize s.calcul_state = 16 then
    ({ s with alive := false }, { out with saved := true })
  else (s, out)

/-- Task-issuing block, appearing verbatim in both arms of the dispatcher
`match` (`if params.len() != 0 { pop; generate id; insert into tasks_state;
send }`).  The third component is the `early` flag: `true` when the block hit
the `params.pop() == None` arm, whose `return` leaves the server thread. -/
def issueTask (s : FractalCalculState) (fresh_id : List Nat) :
    FractalCalculState × Output × Bool :=
  if s.params.length ≠ 0 then
    match vecPop s.params with
    | none =>
      -- "Server Thread: No more task": return
      ({ s with alive := false }, Output.silent, true)
    | some (task, rest) =>
      ({ s with params := rest, tasks_state := alInsert fresh_id task s.tasks_state },
       { reply := some ⟨task, fresh_id⟩, saved := false }, false)
  else (s, Output.silent, false)

/-- Issue a task, then run the end-of-iteration save check. -/
def issueFinish (s : FractalCalculState) (fresh_id : List Nat) :
    FractalCalculState × Output :=
  finishStep (issueTask s fresh_id).1 (issueTask s fresh_id).2.1 (issueTask s fresh_id).2.2

/-- One iteration of the dispatcher event loop (`for received in rx` in
`server/src/main.rs`).  A dead dispatcher (after `return` or `break`)
processes nothing. -/
def step (s : FractalCalculState) (e : Event) : FractalCalculState × Output :=
  if s.alive then
    match e with
    | .request fresh_id => issueFinish s fresh_id
    | .result res datas fresh_id =>
      let id_size := res.id.count
      if datas.length < id_size then
        -- `datas.split_at(id_size)` panics when `id_size` exceeds the
        -- payload length: the server thread dies before any insert, so the
        -- maps keep their pre-event contents and nothing is replied or saved
        ({ s with alive := false }, Output.silent)
      else
        let _id := datas.take id_size
        let data_to_be_transformed := datas.drop id_size
        let pixel_intensities := format_data_to_pixel_intensity_vector data_to_be_transformed
        let s1 := { s with calcul_state := alInsert _id pixel_intensities s.calcul_state }
        match alLookup _id s1.tasks_state with
        | none =>
          -- "Server Thread: No task found": return
          ({ s1 with alive := false }, Output.silent)
        | some _task_calculated =>
          -- put_color_in_image mutates the image buffer (not modeled)
          issueFinish s1 fresh_id
  else (s, Output.silent)

/-- State of the dispatcher right after `main` builds `FractalCalculState`. -/
def initState (name : FractalName) : FractalCalculState :=
  { params := paramsFor name, tasks_state := [], calcul_state := [], alive := true }

/-- Fold a sequence of events through the dispatcher, ignoring outputs. -/
def runEvents (s : FractalCalculState) (es : List Event) : FractalCalculState :=
  es.foldl (fun s e => (step s e).1) s

/-- Dispatcher states reachable from the initial state of `main` by some
event sequence. -/
def reachable (name : FractalName) (s : FractalCalculState) : Prop :=
  ∃ es, runEvents (initState name) es = s

/-- Big-endian `u32::to_be_bytes`. -/
def u32_to_be_bytes (n : Nat) : List Nat :=
  [n / 16777216 % 256, n / 65536 % 256, n / 256 % 256, n % 256]

/-- Big-endian `u32::from_be_bytes`. -/
def u32_from_be_bytes (b0 b1 b2 b3 : Nat) : Nat :=
  b0 * 16777216 + b1 * 65536 + b2 * 256 + b3

/-- `send_message` from `shared/src/messages_methods/messages_methods.rs`,
parameterized by the JSON serializer (`serde_json::to_string` composed with
UTF-8 encoding, an external library).  The `as u32` casts and the `u32`
addition are the explicit `% 2^32`. -/
def send_message (enc : Fragment → List Nat) (fragment : Fragment) (data : List Nat) :
    List Nat :=
  let json_message := enc fragment
  let json_message_size := json_message.length % 4294967296
  let data_message_size := data.length % 4294967296
  let total_message_size := (json_message_size + data_message_size) % 4294967296
  u32_to_be_bytes total_message_size ++ u32_to_be_bytes json_message_size ++
    json_message ++ data

/-- `read_message`, parameterized by the JSON deserializer
(`String::from_utf8_lossy` composed with `serde_json::from_str`).  The two
size headers are `read_exact`; the JSON bytes use a single plain `read`
into a zeroed buffer (modeled as take-available plus zero padding); the
trailing data is `read_exact` again.  `none` is any I/O or protocol error. -/
def read_message (dec : List Nat → Option Fragment) (stream : List Nat) :
    Option (Fragment × List Nat) :=
  match stream with
  | b0 :: b1 :: b2 :: b3 :: rest1 =>
    let total_message_size := u32_from_be_bytes b0 b1 b2 b3
    match rest1 with
    | c0 :: c1 :: c2 :: c3 :: rest2 =>
      let json_message_size := u32_from_be_bytes c0 c1 c2 c3
      if total_message_size < json_message_size then none
      else
        let data_message_size := total_message_size - json_message_size
        let sbuf := rest2.take json_message_size ++
          List.replicate (json_message_size - rest2.length) 0
        match dec sbuf with
        | none => none
        | some fragment =>
          let rest3 := rest2.drop json_message_size
          if rest3.length < data_message_size then none
          else some (fragment, rest3.take data_message_size)
    | _ => none
  | _ => none

/-- Concrete 16-byte task id used in the sample dispatcher runs (a possible
output of `generate_unique_id`). -/
def idFor (n : Nat) : List Nat := List.replicate 16 (n + 1)

/-- Concrete `FragmentResult` envelope used in the sample dispatcher runs;
only its `id.count` field is read by the dispatcher. -/
def sampleResult : FragmentResult :=
  { id := ⟨0, 16⟩, resolution := ⟨300, 300⟩,
    range := ⟨⟨0, 0⟩, ⟨1, 1⟩⟩, pixels := ⟨16, 90000⟩ }

/-- Sixteen `FragmentRequest` events with distinct fresh ids: they drain
`params` completely. -/
def traceRequests : List Event := (List.range 16).map (fun n => Event.request (idFor n))

/-- The first fifteen `FragmentResult` events echoing the issued ids, each
with an empty pixel payload. -/
def traceResults15 : List Event :=
  (List.range 15).map (fun n => Event.result sampleResult (idFor n) (idFor 50))

/-- Dispatcher state after the sixteen requests and the first fifteen
results. -/
def stateBeforeSave : FractalCalculState :=
  runEvents (initState .Julia) (traceRequests ++ traceResults15)

/-- Dispatcher state after the sixteen requests alone: `params` is empty.  -/
def stateDrained : FractalCalculState := runEvents (initState .Julia) traceRequests

/-- Dispatcher state after one request: a single task is in flight. -/
def stateOneTask : FractalCalculState := runEvents (initState .Julia) [Event.request (idFor 0)]

/-- The sixteenth result event, whose processing brings `|calcul_state|`
to 16 and triggers the image save. -/
def savingEvent : Event := Event.result sampleResult (idFor 15) (idFor 50)

/-- Trivial interpretation of the transcendental operations, used to
instantiate hypotheses at concrete inputs. -/
def opsZero : RealOps := ⟨fun _ => 0, fun _ => 0, fun _ => 0, fun _ => 0, fun _ _ => 0, 0⟩

/-- Interpretation with `pi = 1` and `atan2 = 0`, satisfying the range
contract `atan2 ∈ [-pi, pi]` with `pi > 0` at concrete inputs. -/
def opsOne : RealOps := ⟨fun _ => 0, fun _ => 0, fun _ => 0, fun _ => 0, fun _ _ => 0, 1⟩

/-- Tiny concrete task (1×1 pixels, one iteration) for evaluating the
scan-order theorem. -/
def sampleTask : FragmentTask :=
  { id := ⟨0, 16⟩, fractal := .iteratedSinZ ⟨1, 3/10⟩, max_iteration := 1,
    resolution := ⟨1, 1⟩, range := ⟨⟨0, 0⟩, ⟨1, 1⟩⟩ }

/-- A payload of 2³² zero bytes: its length does not fit the `u32` size
field of the wire format. -/
def bigPayload : List Nat := List.replicate 4294967296 0

/-- Concrete fragment for exercising the framing codec. -/
def sampleFragment : Fragment := .request ⟨"worker", 10⟩

/-- One-byte JSON serializer stub satisfying the serde round-trip contract
on `sampleFragment`. -/
def sampleEnc : Fragment → List Nat := fun _ => [123]

/-- Matching deserializer stub: decodes everything to `sampleFragment`. -/
def sampleDec : List Nat → Option Fragment := fun _ => some sampleFragment

lemma runWhile_cnt {σ : Type} (test : σ → Bool) (body : σ → σ) (cnt : σ → Nat)
    (hb : ∀ s, cnt (body s) ≤ cnt s + 1) :
    ∀ (fuel : Nat) (s : σ), cnt (runWhile test body fuel s) ≤ cnt s + fuel := by
  intro fuel
  induction fuel with
  | zero => intro s; simp [runWhile]
  | succ n ih =>
    intro s
    simp only [runWhile]
    cases htest : test s
    · simp only [Bool.false_eq_true, if_false]; omega
    · simp only [if_true]
      calc cnt (runWhile test body n (body s)) ≤ cnt (body s) + n := ih (body s)
        _ ≤ cnt s + 1 + n := by have := hb s; omega
        _ = cnt s + (n + 1) := by omega

lemma count_ratio_bounds (n max_iter : Nat) (hn : n ≤ max_iter) (h : 1 ≤ max_iter) :
    0 ≤ (n : ℚ) / (max_iter : ℚ) ∧ (n : ℚ) / (max_iter : ℚ) ≤ 1 := by
  have hpos : (0 : ℚ) < (max_iter : ℚ) := by exact_mod_cast h
  constructor
  · positivity
  · rw [div_le_one hpos]; exact_mod_cast hn

lemma runWhile_pair_cnt_le (test : Complex × Nat → Bool) (F : Complex × Nat → Complex)
    (fuel : Nat) (z : Complex) :
    (runWhile test (fun s => (F s, s.2 + 1)) fuel (z, 0)).2 ≤ fuel := by
  have := runWhile_cnt test (fun s => (F s, s.2 + 1)) Prod.snd (fun s => by simp) fuel (z, 0)
  simpa using this

lemma runWhile_triple_cnt_le (test : Complex × Complex × Nat → Bool)
    (G H : Complex × Complex × Nat → Complex) (fuel : Nat) (a b : Complex) :
    (runWhile test (fun s => (G s, H s, s.2.2 + 1)) fuel (a, b, 0)).2.2 ≤ fuel := by
  have := runWhile_cnt test (fun s => (G s, H s, s.2.2 + 1)) (fun s => s.2.2)
    (fun s => by simp) fuel (a, b, 0)
  simpa using this

lemma format_data_length : ∀ l : List Nat,
    (format_data_to_pixel_intensity_vector l).length = l.length / 8
  | b0 :: b1 :: b2 :: b3 :: b4 :: b5 :: b6 :: b7 :: rest => by
    rw [format_data_to_pixel_intensity_vector]
    simp only [List.length_cons]
    rw [format_data_length rest]
    omega
  | [] => rfl
  | [_] => by show (0 : Nat) = 1 / 8; norm_num
  | [_, _] => by show (0 : Nat) = 2 / 8; norm_num
  | [_, _, _] => by show (0 : Nat) = 3 / 8; norm_num
  | [_, _, _, _] => by show (0 : Nat) = 4 / 8; norm_num
  | [_, _, _, _, _] => by show (0 : Nat) = 5 / 8; norm_num
  | [_, _, _, _, _, _] => by show (0 : Nat) = 6 / 8; norm_num
  | [_, _, _, _, _, _, _] => by show (0 : Nat) = 7 / 8; norm_num

lemma alLookup_filter_ne {α : Type} (k k' : List Nat) (m : List (List Nat × α)) (h : k ≠ k') :
    alLookup k (m.filter (fun p => decide (p.1 ≠ k'))) = alLookup k m := by
  induction m with
  | nil => rfl
  | cons p rest ih =>
    obtain ⟨k₀, v₀⟩ := p
    by_cases hk : k₀ = k'
    · subst hk
      have hkne : k ≠ k₀ := h
      simp only [List.filter_cons, alLookup, hkne, if_neg hkne]
      simp only [ne_eq, decide_not, decide_eq_true_eq, not_true_eq_false]
      simp only [show (decide (k₀ = k₀)) = true by simp, Bool.not_true, Bool.false_eq_true,
        if_false]
      simpa using ih
    · by_cases hkk : k = k₀
      · subst hkk
        simp [List.filter_cons, alLookup, hk]
      · simp only [List.filter_cons, ne_eq, decide_not]
        simp only [show (decide (k₀ = k')) = false by simp [hk], Bool.not_false, if_true]
        simp only [alLookup, if_neg hkk]
        simpa using ih

lemma alLookup_alInsert {α : Type} (k k' : List Nat) (v : α) (m : List (List Nat × α)) :
    alLookup k (alInsert k' v m) = if k = k' then some v else alLookup k m := by
  unfold alInsert
  rcases eq_or_ne k k' with h | h
  · subst h; simp [alLookup]
  · simp only [alLookup, h, if_neg h]
    exact alLookup_filter_ne k k' m h

lemma alLookup_alInsert_isSome {α : Type} (k k' : List Nat) (v : α) (m : List (List Nat × α))
    (h : (alLookup k m).isSome = true) :
    (alLookup k (alInsert k' v m)).isSome = true := by
  rw [alLookup_alInsert]
  split <;> simp [h]

lemma vecPop_ne_none {α : Type} (a : α) (as : List α) : vecPop (a :: as) ≠ none := by
  unfold vecPop
  cases h : (a :: as).getLast? with
  | none => simp at h
  | some x => simp

lemma vecPop_of_ne_nil {α : Type} (l : List α) (h : l ≠ []) :
    ∃ x rest, vecPop l = some (x, rest) := by
  cases l with
  | nil => exact absurd rfl h
  | cons a as =>
    cases hv : vecPop (a :: as) with
    | none => exact absurd hv (vecPop_ne_none a as)
    | some p =>
      obtain ⟨x, r⟩ := p
      exact ⟨x, r, rfl⟩

lemma issueTask_spec (s : FractalCalculState) (fid : List Nat) :
    (s.params = [] ∧ issueTask s fid = (s, Output.silent, false)) ∨
    (∃ task rest, vecPop s.params = some (task, rest) ∧
      issueTask s fid =
        ({ s with params := rest, tasks_state := alInsert fid task s.tasks_state },
         { reply := some ⟨task, fid⟩, saved := false }, false)) := by
  by_cases hp : s.params = []
  · left
    refine ⟨hp, ?_⟩
    unfold issueTask
    simp [hp]
  · right
    obtain ⟨task, rest, hv⟩ := vecPop_of_ne_nil s.params hp
    refine ⟨task, rest, hv, ?_⟩
    unfold issueTask
    have hlen : ¬ s.params.length = 0 := by
      simpa [List.length_eq_zero] using hp
    simp only [ne_eq, hlen, not_false_eq_true, if_true, hv]

lemma issueTask_early (s : FractalCalculState) (fid : List Nat) :
    (issueTask s fid).2.2 = false := by
  rcases issueTask_spec s fid with ⟨_, h⟩ | ⟨t, r, _, h⟩ <;> rw [h]

lemma issueTask_saved (s : FractalCalculState) (fid : List Nat) :
    (issueTask s fid).2.1.saved = false := by
  rcases issueTask_spec s fid with ⟨_, h⟩ | ⟨t, r, _, h⟩ <;> rw [h] <;> rfl

lemma issueTask_calcul (s : FractalCalculState) (fid : List Nat) :
    (issueTask s fid).1.calcul_state = s.calcul_state := by
  rcases issueTask_spec s fid with ⟨_, h⟩ | ⟨t, r, _, h⟩ <;> rw [h]

lemma issueTask_tasks_mono (s : FractalCalculState) (fid k : List Nat)
    (h : (alLookup k s.tasks_state).isSome = true) :
    (alLookup k (issueTask s fid).1.tasks_state).isSome = true := by
  rcases issueTask_spec s fid with ⟨_, hh⟩ | ⟨t, r, _, hh⟩ <;> rw [hh]
  · exact h
  · exact alLookup_alInsert_isSome k fid t _ h

lemma finishStep_calcul (s : FractalCalculState) (out : Output) (early : Bool) :
    (finishStep s out early).1.calcul_state = s.calcul_state := by
  unfold finishStep
  split_ifs <;> rfl

lemma finishStep_tasks (s : FractalCalculState) (out : Output) (early : Bool) :
    (finishStep s out early).1.tasks_state = s.tasks_state := by
  unfold finishStep
  split_ifs <;> rfl

lemma finishStep_saved_iff (s : FractalCalculState) (out : Output) (early : Bool)
    (hout : out.saved = false) :
    ((finishStep s out early).2.saved = true) ↔
      (early = false ∧ alSize s.calcul_state = 16) := by
  unfold finishStep
  split_ifs with h1 h2 <;> simp_all

lemma finishStep_alive_of_saved (s : FractalCalculState) (out : Output) (early : Bool)
    (hout : out.saved = false) (h : (finishStep s out early).2.saved = true) :
    (finishStep s out early).1.alive = false := by
  unfold finishStep at h ⊢
  split_ifs at h ⊢ with h1 h2
  · exact absurd h (by simp [hout])
  · rfl
  · exact absurd h (by simp [hout])

lemma issueFinish_saved_iff (s : FractalCalculState) (fid : List Nat) :
    (issueFinish s fid).2.saved = true ↔ alSize s.calcul_state = 16 := by
  unfold issueFinish
  rw [finishStep_saved_iff _ _ _ (issueTask_saved s fid), issueTask_early, issueTask_calcul]
  simp

lemma issueFinish_calcul (s : FractalCalculState) (fid : List Nat) :
    (issueFinish s fid).1.calcul_state = s.calcul_state := by
  unfold issueFinish
  rw [finishStep_calcul, issueTask_calcul]

lemma issueFinish_tasks_mono (s : FractalCalculState) (fid k : List Nat)
    (h : (alLookup k s.tasks_state).isSome = true) :
    (alLookup k (issueFinish s fid).1.tasks_state).isSome = true := by
  unfold issueFinish
  rw [finishStep_tasks]
  exact issueTask_tasks_mono s fid k h

lemma issueFinish_alive_of_saved (s : FractalCalculState) (fid : List Nat)
    (h : (issueFinish s fid).2.saved = true) :
    (issueFinish s fid).1.alive = false := by
  unfold issueFinish at h ⊢
  exact finishStep_alive_of_saved _ _ _ (issueTask_saved s fid) h

lemma step_dead (s : FractalCalculState) (e : Event) (h : s.alive = false) :
    step s e = (s, Output.silent) := by
  simp [step, h]

lemma runEvents_dead (s : FractalCalculState) (h : s.alive = false) :
    ∀ es, runEvents s es = s := by
  intro es
  induction es with
  | nil => rfl
  | cons e es ih =>
    rw [show runEvents s (e :: es) = runEvents (step s e).1 es from rfl, step_dead s e h]
    exact ih

lemma step_request (s : FractalCalculState) (fid : List Nat) (hs : s.alive = true) :
    step s (.request fid) = issueFinish s fid := by
  simp [step, hs]

lemma step_result_panic (s : FractalCalculState) (res : FragmentResult)
    (datas fid : List Nat) (hs : s.alive = true)
    (hlen : datas.length < res.id.count) :
    step s (.result res datas fid) = ({ s with alive := false }, Output.silent) := by
  simp only [step, hs, if_true]
  rw [if_pos hlen]

lemma step_result_found (s : FractalCalculState) (res : FragmentResult)
    (datas fid : List Nat) (hs : s.alive = true)
    (hlen : res.id.count ≤ datas.length)
    (hl : (alLookup (datas.take res.id.count) s.tasks_state).isSome = true) :
    step s (.result res datas fid) =
      issueFinish
        { s with
          calcul_state := alInsert (datas.take res.id.count)
            (format_data_to_pixel_intensity_vector (datas.drop res.id.count))
            s.calcul_state }
        fid := by
  obtain ⟨t, ht⟩ := Option.isSome_iff_exists.mp hl
  simp only [step, hs, if_true, ht]
  rw [if_neg (by omega : ¬ datas.length < res.id.count)]

lemma step_result_missing (s : FractalCalculState) (res : FragmentResult)
    (datas fid : List Nat) (hs : s.alive = true)
    (hlen : res.id.count ≤ datas.length)
    (hl : alLookup (datas.take res.id.count) s.tasks_state = none) :
    step s (.result res datas fid) =
      ({ s with
         calcul_state := alInsert (datas.take res.id.count)
           (format_data_to_pixel_intensity_vector (datas.drop res.id.count))
           s.calcul_state,
         alive := false }, Output.silent) := by
  simp only [step, hs, if_true, hl]
  rw [if_neg (by omega : ¬ datas.length < res.id.count)]

lemma alSize_alInsert_le {α : Type} (k : List Nat) (v : α) (m : List (List Nat × α)) :
    alSize (alInsert k v m) ≤ alSize m + 1 := by
  unfold alInsert alSize
  simp only [List.length_cons]
  have := List.length_filter_le (fun p : List Nat × α => decide (p.1 ≠ k)) m
  omega

lemma issueFinish_alive_case (s : FractalCalculState) (fid : List Nat)
    (halive : (issueFinish s fid).1.alive = true) :
    alSize (issueFinish s fid).1.calcul_state = alSize s.calcul_state ∧
    alSize s.calcul_state ≠ 16 := by
  refine ⟨by rw [issueFinish_calcul], ?_⟩
  intro h16
  have hsave : (issueFinish s fid).2.saved = true := (issueFinish_saved_iff s fid).mpr h16
  have hdead := issueFinish_alive_of_saved s fid hsave
  rw [hdead] at halive
  simp at halive

lemma issueFinish_size_lt (s1 : FractalCalculState) (fid : List Nat)
    (hle : alSize s1.calcul_state ≤ 16)
    (halive : (issueFinish s1 fid).1.alive = true) :
    alSize (issueFinish s1 fid).1.calcul_state < 16 := by
  obtain ⟨heq, hne⟩ := issueFinish_alive_case s1 fid halive
  omega

lemma step_inv (s : FractalCalculState) (e : Event)
    (hI : s.alive = true → alSize s.calcul_state < 16) :
    (step s e).1.alive = true → alSize (step s e).1.calcul_state < 16 := by
  cases hs : s.alive with
  | false => rw [step_dead s e hs]; exact hI
  | true =>
    have hsz := hI hs
    cases e with
    | request fid =>
      rw [step_request s fid hs]
      intro _
      rw [issueFinish_calcul]
      exact hsz
    | result res datas fid =>
      by_cases hlen : datas.length < res.id.count
      · rw [step_result_panic s res datas fid hs hlen]
        intro h
        simp at h
      · have hlen' : res.id.count ≤ datas.length := by omega
        cases hl : (alLookup (datas.take res.id.count) s.tasks_state).isSome with
        | false =>
          have hl' : alLookup (datas.take res.id.count) s.tasks_state = none := by
            cases hopt : alLookup (datas.take res.id.count) s.tasks_state
            · rfl
            · rw [hopt] at hl; simp at hl
          rw [step_result_missing s res datas fid hs hlen' hl']
          intro h
          simp at h
        | true =>
          rw [step_result_found s res datas fid hs hlen' hl]
          intro halive
          apply issueFinish_size_lt _ fid _ halive
          show alSize (alInsert (datas.take res.id.count)
            (format_data_to_pixel_intensity_vector (datas.drop res.id.count))
            s.calcul_state) ≤ 16
          have hins := alSize_alInsert_le (datas.take res.id.count)
            (format_data_to_pixel_intensity_vector (datas.drop res.id.count)) s.calcul_state
          omega

lemma runEvents_inv (es : List Event) : ∀ s : FractalCalculState,
    (s.alive = true → alSize s.calcul_state < 16) →
    ((runEvents s es).alive = true → alSize (runEvents s es).calcul_state < 16) := by
  induction es with
  | nil => intro s hI; exact hI
  | cons e es ih =>
    intro s hI
    rw [show runEvents s (e :: es) = runEvents (step s e).1 es from rfl]
    exact ih _ (step_inv s e hI)

lemma reachable_inv (name : FractalName) (s : FractalCalculState)
    (h : reachable name s) : s.alive = true → alSize s.calcul_state < 16 := by
  obtain ⟨es, rfl⟩ := h
  exact runEvents_inv es _ (by intro _; simp [initState, alSize])

lemma runWhile_step_true {σ : Type} (test : σ → Bool) (body : σ → σ) (fuel : Nat) (s : σ)
    (h : test s = true) :
    runWhile test body (fuel + 1) s = runWhile test body fuel (body s) := by
  simp [runWhile, h]

lemma runWhile_stop {σ : Type} (test : σ → Bool) (body : σ → σ) (fuel : Nat) (s : σ)
    (h : test s = false) : runWhile test body (fuel + 1) s = s := by
  simp [runWhile, h]

lemma runWhile_two_steps {σ : Type} (test : σ → Bool) (body : σ → σ) (fuel : Nat)
    (s0 s1 : σ) (h0 : test s0 = true) (hb : body s0 = s1) (h1 : test s1 = false) :
    runWhile test body (fuel + 2) s0 = s1 := by
  rw [show fuel + 2 = (fuel + 1) + 1 from rfl,
    runWhile_step_true test body (fuel + 1) s0 h0, hb,
    runWhile_stop test body fuel s1 h1]

lemma newton_zn_bounds (a p : ℚ) (hp : 0 < p) (h1 : -p ≤ a) (h2 : a ≤ p) :
    0 ≤ 1 / 2 + a / (2 * p) ∧ 1 / 2 + a / (2 * p) ≤ 1 := by
  have h2p : 0 < 2 * p := by linarith
  have hle : a / (2 * p) ≤ 1 / 2 := by
    rw [div_le_iff h2p]
    linarith
  have hge : -(1 / 2) ≤ a / (2 * p) := by
    rw [le_div_iff h2p]
    linarith
  constructor <;> linarith

lemma u32_roundtrip (n : Nat) (h : n < 4294967296) :
    u32_from_be_bytes (n / 16777216 % 256) (n / 65536 % 256) (n / 256 % 256) (n % 256) = n := by
  unfold u32_from_be_bytes
  omega

lemma create_params_for_eq (fr : FractalDescriptor) :
    create_params_for fr =
      [ { id := ⟨0, 16⟩, fractal := fr, max_iteration := 64, resolution := ⟨300, 300⟩,
          range := ⟨⟨-(12/10), -(12/10)⟩, ⟨-(6/10), -(6/10)⟩⟩ },
        { id := ⟨0, 16⟩, fractal := fr, max_iteration := 64, resolution := ⟨300, 300⟩,
          range := ⟨⟨-(6/10), -(12/10)⟩, ⟨0, -(6/10)⟩⟩ },
        { id := ⟨0, 16⟩, fractal := fr, max_iteration := 64, resolution := ⟨300, 300⟩,
          range := ⟨⟨0, -(12/10)⟩, ⟨6/10, -(6/10)⟩⟩ },
        { id := ⟨0, 16⟩, fractal := fr, max_iteration := 64, resolution := ⟨300, 300⟩,
          range := ⟨⟨6/10, -(12/10)⟩, ⟨12/10, -(6/10)⟩⟩ },
        { id := ⟨0, 16⟩, fractal := fr, max_iteration := 64, resolution := ⟨300, 300⟩,
          range := ⟨⟨-(12/10), -(6/10)⟩, ⟨-(6/10), 0⟩⟩ },
        { id := ⟨0, 16⟩, fractal := fr, max_iteration := 64, resolution := ⟨300, 300⟩,
          range := ⟨⟨-(6/10), -(6/10)⟩, ⟨0, 0⟩⟩ },
        { id := ⟨0, 16⟩, fractal := fr, max_iteration := 64, resolution := ⟨300, 300⟩,
          range := ⟨⟨0, -(6/10)⟩, ⟨6/10, 0⟩⟩ },
        { id := ⟨0, 16⟩, fractal := fr, max_iteration := 64, resolution := ⟨300, 300⟩,
          range := ⟨⟨6/10, -(6/10)⟩, ⟨12/10, 0⟩⟩ },
        { id := ⟨0, 16⟩, fractal := fr, max_iteration := 64, resolution := ⟨300, 300⟩,
          range := ⟨⟨-(12/10), 0⟩, ⟨-(6/10), 6/10⟩⟩ },
        { id := ⟨0, 16⟩, fractal := fr, max_iteration := 64, resolution := ⟨300, 300⟩,
          range := ⟨⟨-(6/10), 0⟩, ⟨0, 6/10⟩⟩ },
        { id := ⟨0, 16⟩, fractal := fr, max_iteration := 64, resolution := ⟨300, 300⟩,
          range := ⟨⟨0, 0⟩, ⟨6/10, 6/10⟩⟩ },
        { id := ⟨0, 16⟩, fractal := fr, max_iteration := 64, resolution := ⟨300, 300⟩,
          range := ⟨⟨6/10, 0⟩, ⟨12/10, 6/10⟩⟩ },
        { id := ⟨0, 16⟩, fractal := fr, max_iteration := 64, resolution := ⟨300, 300⟩,
          range := ⟨⟨-(12/10), 6/10⟩, ⟨-(6/10), 12/10⟩⟩ },
        { id := ⟨0, 16⟩, fractal := fr, max_iteration := 64, resolution := ⟨300, 300⟩,
          range := ⟨⟨-(6/10), 6/10⟩, ⟨0, 12/10⟩⟩ },
        { id := ⟨0, 16⟩, fractal := fr, max_iteration := 64, resolution := ⟨300, 300⟩,
          range := ⟨⟨0, 6/10⟩, ⟨6/10, 12/10⟩⟩ },
        { id := ⟨0, 16⟩, fractal := fr, max_iteration := 64, resolution := ⟨300, 300⟩,
          range := ⟨⟨6/10, 6/10⟩, ⟨12/10, 12/10⟩⟩ } ] := by
  norm_num [create_params_for, create_params_go, tileCursorStep]

lemma paramsFor_tiles (name : FractalName) :
    ∀ i : Fin 16, (paramsFor name)[(i : Nat)]? = some (expectedTile name i) := by
  intro i
  rw [show paramsFor name = create_params_for (descriptorFor name) from rfl,
    create_params_for_eq]
  fin_cases i <;> norm_num [expectedTile]

lemma grid_index (x : ℚ) (h1 : -(12/10) ≤ x) (h2 : x ≤ 12/10) :
    ∃ m : Fin 4, -(12/10) + 6/10 * (((m : Nat) : ℚ)) ≤ x ∧
      x ≤ -(12/10) + 6/10 * (((m : Nat) : ℚ)) + 6/10 := by
  rcases le_or_lt x (-(6/10)) with hx | hx
  · exact ⟨⟨0, by omega⟩, by push_cast; linarith, by push_cast; linarith⟩
  rcases le_or_lt x 0 with hx2 | hx2
  · exact ⟨⟨1, by omega⟩, by push_cast; linarith, by push_cast; linarith⟩
  rcases le_or_lt x (6/10) with hx3 | hx3
  · exact ⟨⟨2, by omega⟩, by push_cast; linarith, by push_cast; linarith⟩
  · exact ⟨⟨3, by omega⟩, by push_cast; linarith, by push_cast; linarith⟩

lemma fin16_ne_split (i j : Fin 16) (hij : i ≠ j) :
    (i : Nat) % 4 ≠ (j : Nat) % 4 ∨ (i : Nat) / 4 ≠ (j : Nat) / 4 := by
  by_contra hcon
  push_neg at hcon
  have hi := i.isLt
  have hj := j.isLt
  exact hij (Fin.ext (by omega))

lemma cells_disjoint (a b : Nat) (hab : a ≠ b) (x : ℚ)
    (h1 : -(12/10) + 6/10 * ((a : Nat) : ℚ) < x)
    (h2 : x < -(12/10) + 6/10 * ((a : Nat) : ℚ) + 6/10)
    (h3 : -(12/10) + 6/10 * ((b : Nat) : ℚ) < x)
    (h4 : x < -(12/10) + 6/10 * ((b : Nat) : ℚ) + 6/10) :
    False := by
  rcases Nat.lt_or_ge a b with hl | hge
  · have hc : ((a : Nat) : ℚ) + 1 ≤ ((b : Nat) : ℚ) := by exact_mod_cast hl
    linarith
  · have hba : b < a := Nat.lt_of_le_of_ne hge (Ne.symm hab)
    have hc : ((b : Nat) : ℚ) + 1 ≤ ((a : Nat) : ℚ) := by exact_mod_cast hba
    linarith

/-- C1 (corrected): an image save happens exactly at a live step whose
result (for an echoed id present in `tasks_state`) brings `|calcul_state|`
to 16; but immediately after the save the actor has left its event loop
(`break`) without clearing anything: `calcul_state` still holds its 16
entries and `tasks_state` keeps every key it had — the spec's claim that
both maps are empty right after the save is false. -/
theorem save_at_sixteen_then_terminate :
    (∀ (s : FractalCalculState) (e : Event),
      (step s e).2.saved = true →
      alSize (step s e).1.calcul_state = 16 ∧ (step s e).1.alive = false ∧
      (step s e).1.calcul_state ≠ [] ∧
      (∀ k, (alLookup k s.tasks_state).isSome = true →
        (alLookup k (step s e).1.tasks_state).isSome = true)) ∧
    (∀ (s : FractalCalculState) (res : FragmentResult) (datas fresh_id : List Nat),
      s.alive = true →
      res.id.count ≤ datas.length →
      (alLookup (datas.take res.id.count) s.tasks_state).isSome = true →
      ((step s (.result res datas fresh_id)).2.saved = true ↔
        alSize (alInsert (datas.take res.id.count)
          (format_data_to_pixel_intensity_vector (datas.drop res.id.count))
          s.calcul_state) = 16)) ∧
    (∀ (name : FractalName) (s : FractalCalculState), reachable name s →
      ∀ e : Event, (step s e).2.saved = true →
      ∃ res datas fresh_id, e = Event.result res datas fresh_id ∧
        res.id.count ≤ datas.length ∧
        (alLookup (datas.take res.id.count) s.tasks_state).isSome = true) := by
  refine ⟨?_, ?_, ?_⟩
  · intro s e h
    cases hs : s.alive with
    | false =>
      rw [step_dead s e hs] at h
      exact absurd h (by simp [Output.silent])
    | true =>
      cases e with
      | request fid =>
        rw [step_request s fid hs] at h ⊢
        have hsz := (issueFinish_saved_iff s fid).mp h
        refine ⟨?_, issueFinish_alive_of_saved s fid h, ?_, ?_⟩
        · rw [show alSize (issueFinish s fid).1.calcul_state =
            alSize s.calcul_state from by rw [issueFinish_calcul]]
          exact hsz
        · rw [issueFinish_calcul]
          intro hnil
          rw [hnil] at hsz
          simp [alSize] at hsz
        · intro k hk
          exact issueFinish_tasks_mono s fid k hk
      | result res datas fid =>
        by_cases hlen : datas.length < res.id.count
        · rw [step_result_panic s res datas fid hs hlen] at h
          exact absurd h (by simp [Output.silent])
        · have hlen' : res.id.count ≤ datas.length := by omega
          cases hl : (alLookup (datas.take res.id.count) s.tasks_state).isSome with
          | false =>
            have hl' : alLookup (datas.take res.id.count) s.tasks_state = none := by
              cases hopt : alLookup (datas.take res.id.count) s.tasks_state
              · rfl
              · rw [hopt] at hl; simp at hl
            rw [step_result_missing s res datas fid hs hlen' hl'] at h
            exact absurd h (by simp [Output.silent])
          | true =>
            rw [step_result_found s res datas fid hs hlen' hl] at h ⊢
            have hsz := (issueFinish_saved_iff _ fid).mp h
            refine ⟨?_, issueFinish_alive_of_saved _ fid h, ?_, ?_⟩
            · rw [show alSize (issueFinish _ fid).1.calcul_state =
                alSize (alInsert (datas.take res.id.count)
                  (format_data_to_pixel_intensity_vector (datas.drop res.id.count))
                  s.calcul_state) from by rw [issueFinish_calcul]]
              exact hsz
            · rw [issueFinish_calcul]
              intro hnil
              simp [alInsert] at hnil
            · intro k hk
              exact issueFinish_tasks_mono _ fid k hk
  · intro s res datas fresh_id hs hlen hl
    rw [step_result_found s res datas fresh_id hs hlen hl]
    exact issueFinish_saved_iff _ fresh_id
  · intro name s hreach e h
    cases hs : s.alive with
    | false =>
      rw [step_dead s e hs] at h
      exact absurd h (by simp [Output.silent])
    | true =>
      cases e with
      | request fid =>
        rw [step_request s fid hs] at h
        have hsz := (issueFinish_saved_iff s fid).mp h
        have hlt := reachable_inv name s hreach hs
        omega
      | result res datas fid =>
        by_cases hlen : datas.length < res.id.count
        · rw [step_result_panic s res datas fid hs hlen] at h
          exact absurd h (by simp [Output.silent])
        · have hlen' : res.id.count ≤ datas.length := by omega
          cases hl : (alLookup (datas.take res.id.count) s.tasks_state).isSome with
          | false =>
            have hl' : alLookup (datas.take res.id.count) s.tasks_state = none := by
              cases hopt : alLookup (datas.take res.id.count) s.tasks_state
              · rfl
              · rw [hopt] at hl; simp at hl
            rw [step_result_missing s res datas fid hs hlen' hl'] at h
            exact absurd h (by simp [Output.silent])
          | true =>
            exact ⟨res, datas, fid, rfl, hlen', hl⟩

/-- Witness for C1's theorem: in the concrete 32-event run, the sixteenth
result triggers the save. -/
theorem save_at_sixteen_then_terminate_witness :
    (step stateBeforeSave savingEvent).2.saved = true :=
  (save_at_sixteen_then_terminate.2.1 stateBeforeSave sampleResult (idFor 15) (idFor 50)
    (by decide) (by decide) (by decide)).mpr (by decide)

/-- Counterexample to C1 as stated: after the saving step of a concrete run,
both `tasks_state` and `calcul_state` still hold 16 entries, contradicting
the claim that they are empty immediately after the save. -/
theorem save_leaves_maps_nonempty_cex :
    (step stateBeforeSave savingEvent).2.saved = true ∧
    (step stateBeforeSave savingEvent).1.tasks_state.length = 16 ∧
    (step stateBeforeSave savingEvent).1.calcul_state.length = 16 := by decide

/-- C2 (corrected): the dispatcher does have a terminal state and never
resets.  A `FragmentRequest` arriving when `params` is empty is silently
ignored — no 5-second sleep, no regeneration, no clearing, no reply; and
once a step saves an image the actor is dead: every later event leaves the
state unchanged and produces no reply. -/
theorem dispatcher_terminal_behavior :
    (∀ (s : FractalCalculState) (fresh_id : List Nat),
      s.alive = true → s.params = [] → alSize s.calcul_state ≠ 16 →
      step s (.request fresh_id) = (s, Output.silent)) ∧
    (∀ (s : FractalCalculState) (e : Event), s.alive = false →
      step s e = (s, Output.silent) ∧ ∀ es, runEvents s es = s) ∧
    (∀ (s : FractalCalculState) (e : Event), (step s e).2.saved = true →
      (step s e).1.alive = false) := by
  refine ⟨?_, ?_, ?_⟩
  · intro s fresh_id hs hp hsz
    rw [step_request s fresh_id hs]
    unfold issueFinish
    rcases issueTask_spec s fresh_id with ⟨_, heq⟩ | ⟨t, r, hv, _⟩
    · rw [heq]
      unfold finishStep
      simp [hsz]
    · rw [hp] at hv
      simp [vecPop] at hv
  · intro s e hdead
    exact ⟨step_dead s e hdead, runEvents_dead s hdead⟩
  · intro s e h
    cases hs : s.alive with
    | false =>
      rw [step_dead s e hs] at h
      exact absurd h (by simp [Output.silent])
    | true =>
      cases e with
      | request fid =>
        rw [step_request s fid hs] at h ⊢
        exact issueFinish_alive_of_saved s fid h
      | result res datas fid =>
        by_cases hlen : datas.length < res.id.count
        · rw [step_result_panic s res datas fid hs hlen] at h
          exact absurd h (by simp [Output.silent])
        · have hlen' : res.id.count ≤ datas.length := by omega
          cases hl : (alLookup (datas.take res.id.count) s.tasks_state).isSome with
          | false =>
            have hl' : alLookup (datas.take res.id.count) s.tasks_state = none := by
              cases hopt : alLookup (datas.take res.id.count) s.tasks_state
              · rfl
              · rw [hopt] at hl; simp at hl
            rw [step_result_missing s res datas fid hs hlen' hl'] at h
            exact absurd h (by simp [Output.silent])
          | true =>
            rw [step_result_found s res datas fid hs hlen' hl] at h ⊢
            exact issueFinish_alive_of_saved _ fid h

/-- Witness for C2's theorem: the concrete drained state ignores a request. -/
theorem dispatcher_terminal_behavior_witness :
    step stateDrained (Event.request (idFor 20)) = (stateDrained, Output.silent) :=
  dispatcher_terminal_behavior.1 stateDrained (idFor 20) (by decide) (by decide) (by decide)

/-- Counterexample to C2 as stated: after the sixteen requests drain
`params`, a further request is answered with no reply and no regeneration —
`params` stays empty, while the claim promises a reset that refills the 16
tiles followed by a task reply. -/
theorem request_on_empty_params_ignored_cex :
    stateDrained.alive = true ∧ stateDrained.params = [] ∧
    (step stateDrained (Event.request (idFor 20))).2.reply = none ∧
    (step stateDrained (Event.request (idFor 20))).1.params.length = 0 := by decide

/-- C3 (corrected): the key sets of `tasks_state` and `calcul_state` are
*not* disjoint.  Ids are never removed from either map: both key sets only
grow under every event, and processing a `FragmentResult` for an in-flight
id leaves that id a key of *both* maps simultaneously. -/
theorem state_maps_monotone :
    (∀ (s : FractalCalculState) (e : Event) (k : List Nat),
      (alLookup k s.tasks_state).isSome = true →
      (alLookup k (step s e).1.tasks_state).isSome = true) ∧
    (∀ (s : FractalCalculState) (e : Event) (k : List Nat),
      (alLookup k s.calcul_state).isSome = true →
      (alLookup k (step s e).1.calcul_state).isSome = true) ∧
    (∀ (s : FractalCalculState) (res : FragmentResult) (datas fresh_id : List Nat),
      s.alive = true →
      res.id.count ≤ datas.length →
      (alLookup (datas.take res.id.count) s.tasks_state).isSome = true →
      (alLookup (datas.take res.id.count)
        (step s (.result res datas fresh_id)).1.tasks_state).isSome = true ∧
      (alLookup (datas.take res.id.count)
        (step s (.result res datas fresh_id)).1.calcul_state).isSome = true) := by
  have hmissing : ∀ (s : FractalCalculState) (res : FragmentResult) (datas fid : List Nat),
      s.alive = true →
      (alLookup (datas.take res.id.count) s.tasks_state).isSome = false →
      alLookup (datas.take res.id.count) s.tasks_state = none := by
    intro s res datas fid hs hl
    cases hopt : alLookup (datas.take res.id.count) s.tasks_state
    · rfl
    · rw [hopt] at hl; simp at hl
  refine ⟨?_, ?_, ?_⟩
  · intro s e k hk
    cases hs : s.alive with
    | false => rw [step_dead s e hs]; exact hk
    | true =>
      cases e with
      | request fid =>
        rw [step_request s fid hs]
        exact issueFinish_tasks_mono s fid k hk
      | result res datas fid =>
        by_cases hlen : datas.length < res.id.count
        · rw [step_result_panic s res datas fid hs hlen]
          exact hk
        · have hlen' : res.id.count ≤ datas.length := by omega
          cases hl : (alLookup (datas.take res.id.count) s.tasks_state).isSome with
          | false =>
            rw [step_result_missing s res datas fid hs hlen'
              (hmissing s res datas fid hs hl)]
            exact hk
          | true =>
            rw [step_result_found s res datas fid hs hlen' hl]
            exact issueFinish_tasks_mono _ fid k hk
  · intro s e k hk
    cases hs : s.alive with
    | false => rw [step_dead s e hs]; exact hk
    | true =>
      cases e with
      | request fid =>
        rw [step_request s fid hs, issueFinish_calcul]
        exact hk
      | result res datas fid =>
        by_cases hlen : datas.length < res.id.count
        · rw [step_result_panic s res datas fid hs hlen]
          exact hk
        · have hlen' : res.id.count ≤ datas.length := by omega
          cases hl : (alLookup (datas.take res.id.count) s.tasks_state).isSome with
          | false =>
            rw [step_result_missing s res datas fid hs hlen'
              (hmissing s res datas fid hs hl)]
            exact alLookup_alInsert_isSome k _ _ _ hk
          | true =>
            rw [step_result_found s res datas fid hs hlen' hl, issueFinish_calcul]
            exact alLookup_alInsert_isSome k _ _ _ hk
  · intro s res datas fresh_id hs hlen hl
    rw [step_result_found s res datas fresh_id hs hlen hl]
    constructor
    · exact issueFinish_tasks_mono _ fresh_id _ hl
    · rw [issueFinish_calcul]
      rw [alLookup_alInsert]
      simp

/-- Witness for C3's theorem: after a request and the matching result, the
issued id is a key of both maps. -/
theorem state_maps_monotone_witness :
    (alLookup ((idFor 0).take sampleResult.id.count)
      (step stateOneTask (Event.result sampleResult (idFor 0) (idFor 50))).1.tasks_state).isSome
        = true ∧
    (alLookup ((idFor 0).take sampleResult.id.count)
      (step stateOneTask (Event.result sampleResult (idFor 0) (idFor 50))).1.calcul_state).isSome
        = true :=
  state_maps_monotone.2.2 stateOneTask sampleResult (idFor 0) (idFor 50)
    (by decide) (by decide) (by decide)

/-- Counterexample to C3 as stated: in a concrete two-event run the id of
the completed tile is simultaneously a key of `tasks_state` and of
`calcul_state` — the claimed disjointness fails. -/
theorem maps_share_key_cex :
    (alLookup (idFor 0) (runEvents (initState .Julia)
      [Event.request (idFor 0),
       Event.result sampleResult (idFor 0) (idFor 50)]).tasks_state).isSome = true ∧
    (alLookup (idFor 0) (runEvents (initState .Julia)
      [Event.request (idFor 0),
       Event.result sampleResult (idFor 0) (idFor 50)]).calcul_state).isSome = true := by
  decide

/-- C6 (corrected): a `FragmentResult` whose pixel payload is not a multiple
of 8 bytes is *not* dropped.  `chunks_exact(8)` silently truncates to
`⌊len/8⌋` whole records, that truncated decode *is* inserted into
`calcul_state` under the echoed id, and the task also remains a key of
`tasks_state`. -/
theorem malformed_result_truncated_insert
    (s : FractalCalculState) (res : FragmentResult) (datas fresh_id : List Nat)
    (hs : s.alive = true)
    (htask : (alLookup (datas.take res.id.count) s.tasks_state).isSome = true)
    (hmod : (datas.drop res.id.count).length % 8 ≠ 0) :
    (alLookup (datas.take res.id.count)
        (step s (.result res datas fresh_id)).1.calcul_state) =
      some (format_data_to_pixel_intensity_vector (datas.drop res.id.count)) ∧
    (format_data_to_pixel_intensity_vector (datas.drop res.id.count)).length =
      (datas.drop res.id.count).length / 8 ∧
    (alLookup (datas.take res.id.count)
        (step s (.result res datas fresh_id)).1.tasks_state).isSome = true := by
  have hlen : res.id.count ≤ datas.length := by
    by_contra hlt
    have hdrop : (datas.drop res.id.count).length = 0 := by
      rw [List.length_drop]; omega
    rw [hdrop] at hmod
    exact hmod rfl
  refine ⟨?_, format_data_length _, ?_⟩
  · rw [step_result_found s res datas fresh_id hs hlen htask, issueFinish_calcul]
    rw [alLookup_alInsert]
    simp
  · rw [step_result_found s res datas fresh_id hs hlen htask]
    exact issueFinish_tasks_mono _ fresh_id _ htask

/-- Witness for C6's theorem: a 5-byte pixel payload (two whole records
short of one) still results in an insert of the truncated (empty) decode. -/
theorem malformed_result_truncated_insert_witness :
    (alLookup ((idFor 0 ++ [7, 7, 7, 7, 7]).take sampleResult.id.count)
      (step stateOneTask
        (Event.result sampleResult (idFor 0 ++ [7, 7, 7, 7, 7]) (idFor 50))).1.calcul_state) =
      some (format_data_to_pixel_intensity_vector
        ((idFor 0 ++ [7, 7, 7, 7, 7]).drop sampleResult.id.count)) :=
  (malformed_result_truncated_insert stateOneTask sampleResult
    (idFor 0 ++ [7, 7, 7, 7, 7]) (idFor 50) (by decide) (by decide) (by decide)).1

/-- Counterexample to C6 as stated: the claim says nothing is inserted into
`calcul_state` for a malformed payload, but after a concrete run with a
5-byte pixel payload the echoed id *is* a key of `calcul_state` (bound to
the truncated, here empty, decode). -/
theorem malformed_result_inserted_cex :
    (alLookup (idFor 0)
      (runEvents (initState .Julia)
        [Event.request (idFor 0),
         Event.result sampleResult (idFor 0 ++ [7, 7, 7, 7, 7]) (idFor 50)]).calcul_state) =
      some [] := by decide

/-- C10 (confirmed): a `FragmentResult` whose echoed id is not a key of
`tasks_state` first inserts its decoded payload into `calcul_state`, then
hits the `None => return` arm of the task lookup: the event loop returns
permanently — the step emits no reply and no save, and every subsequent
event (singly or in any sequence) leaves the state unchanged. -/
theorem forged_id_returns_permanently
    (s : FractalCalculState) (res : FragmentResult) (datas fresh_id : List Nat)
    (hs : s.alive = true)
    (hlen : res.id.count ≤ datas.length)
    (hmiss : alLookup (datas.take res.id.count) s.tasks_state = none) :
    (step s (.result res datas fresh_id)).1.calcul_state =
      alInsert (datas.take res.id.count)
        (format_data_to_pixel_intensity_vector (datas.drop res.id.count)) s.calcul_state ∧
    (step s (.result res datas fresh_id)).1.alive = false ∧
    (step s (.result res datas fresh_id)).2 = Output.silent ∧
    (∀ e', step (step s (.result res datas fresh_id)).1 e' =
      ((step s (.result res datas fresh_id)).1, Output.silent)) ∧
    (∀ es, runEvents (step s (.result res datas fresh_id)).1 es =
      (step s (.result res datas fresh_id)).1) := by
  rw [step_result_missing s res datas fresh_id hs hlen hmiss]
  refine ⟨rfl, rfl, rfl, ?_, ?_⟩
  · intro e'
    exact step_dead _ e' rfl
  · exact runEvents_dead _ rfl

/-- Witness for C10's theorem: a forged-id result against the fresh
dispatcher (whose `tasks_state` is empty) kills the actor silently. -/
theorem forged_id_returns_permanently_witness :
    (step (initState .Julia) (Event.result sampleResult (idFor 7) (idFor 50))).1.alive = false ∧
    (step (initState .Julia) (Event.result sampleResult (idFor 7) (idFor 50))).2 =
      Output.silent :=
  ⟨(forged_id_returns_permanently (initState .Julia) sampleResult (idFor 7) (idFor 50)
      (by decide) (by decide) (by decide)).2.1,
   (forged_id_returns_permanently (initState .Julia) sampleResult (idFor 7) (idFor 50)
      (by decide) (by decide) (by decide)).2.2.1⟩

/-- C4 (corrected): the framing codec round-trips whenever the encoded JSON
plus the payload fit the `u32` size headers (and the JSON codec satisfies the
serde round-trip contract); for payloads of 2³² bytes or more the `as u32`
casts wrap and the round-trip fails, so the claim does not hold for *every*
byte payload. -/
theorem framing_roundtrip (enc : Fragment → List Nat) (dec : List Nat → Option Fragment)
    (f : Fragment) (data : List Nat)
    (hdec : dec (enc f) = some f)
    (hsize : (enc f).length + data.length < 4294967296) :
    read_message dec (send_message enc f data) = some (f, data) := by
  have hj : (enc f).length < 4294967296 := by omega
  simp only [send_message]
  rw [Nat.mod_eq_of_lt hj, Nat.mod_eq_of_lt (by omega : data.length < 4294967296),
    Nat.mod_eq_of_lt hsize]
  unfold u32_to_be_bytes
  simp only [List.cons_append, List.nil_append]
  simp only [read_message]
  rw [u32_roundtrip _ hsize, u32_roundtrip _ hj]
  rw [if_neg (by omega : ¬ (enc f).length + data.length < (enc f).length)]
  rw [List.take_left]
  rw [show (enc f).length - ((enc f) ++ data).length = 0 from by
    simp [List.length_append]]
  rw [List.replicate_zero, List.append_nil, hdec]
  rw [List.drop_left]
  rw [show (enc f).length + data.length - (enc f).length = data.length from by omega]
  show (if data.length < data.length then none else some (f, List.take data.length data)) =
    some (f, data)
  rw [if_neg (lt_irrefl data.length), List.take_length]

/-- Witness for C4's theorem at a concrete codec, fragment and payload. -/
theorem framing_roundtrip_witness :
    read_message sampleDec (send_message sampleEnc sampleFragment [5, 6]) =
      some (sampleFragment, [5, 6]) :=
  framing_roundtrip sampleEnc sampleDec sampleFragment [5, 6] rfl (by decide)

/-- Counterexample to C4 as stated: with a payload of 2³² bytes the `u32`
total-size header wraps to 1, the reader consumes only the JSON byte, and
the round-trip returns an empty payload instead of the original one. -/
theorem framing_overflow_cex :
    sampleDec (sampleEnc sampleFragment) = some sampleFragment ∧
    read_message sampleDec (send_message sampleEnc sampleFragment bigPayload) =
      some (sampleFragment, []) ∧
    read_message sampleDec (send_message sampleEnc sampleFragment bigPayload) ≠
      some (sampleFragment, bigPayload) := by
  have hlen : bigPayload.length = 4294967296 := by
    rw [show bigPayload = List.replicate 4294967296 0 from rfl, List.length_replicate]
  have h2 : read_message sampleDec (send_message sampleEnc sampleFragment bigPayload) =
      some (sampleFragment, []) := by
    simp only [send_message, sampleEnc]
    have h1 : [123].length % 4294967296 = 1 := by norm_num
    have hb : bigPayload.length % 4294967296 = 0 := by rw [hlen]
    rw [h1, hb]
    have h3 : (1 + 0) % 4294967296 = 1 := by norm_num
    rw [h3]
    have h4 : u32_to_be_bytes 1 = [0, 0, 0, 1] := by norm_num [u32_to_be_bytes]
    rw [h4]
    simp only [List.cons_append, List.nil_append]
    simp only [read_message]
    have h5 : u32_from_be_bytes 0 0 0 1 = 1 := by norm_num [u32_from_be_bytes]
    rw [h5]
    rw [if_neg (lt_irrefl 1)]
    have h6 : (123 :: bigPayload).take 1 = [123] := by
      rw [List.take_succ_cons, List.take_zero]
    have h7 : 1 - (123 :: bigPayload).length = 0 := by
      rw [List.length_cons, hlen]
    rw [h6, h7, List.replicate_zero, List.append_nil]
    show (if bigPayload.length < 1 - 1 then none
        else some (sampleFragment, bigPayload.take (1 - 1))) = some (sampleFragment, [])
    rw [hlen, if_neg (by norm_num : ¬ (4294967296 < 1 - 1))]
    rw [show (1 : Nat) - 1 = 0 from rfl, List.take_zero]
  refine ⟨rfl, h2, ?_⟩
  rw [h2]
  intro hcontra
  have hnil : ([] : List Nat) = bigPayload := by
    simpa using hcontra
  have hl := congrArg List.length hnil
  rw [hlen] at hl
  simp at hl

/-- C5 (corrected): for every kernel (with its transcendental operations
uninterpreted) and every pixel, the returned `count` lies in `[0, 1]`
whenever `max_iter ≥ 1`; the two Nova kernels return `zn = 0`, and the two
plain Newton kernels return `zn = 1/2 + atan2(im, re)/(2π) ∈ [0, 1]`
whenever `π > 0` and `atan2` ranges over `[−π, π]`; but the claimed bound
`zn ≤ 1` is false for all three escape-time kernels — the escape test runs
before the first iteration, so a pixel that is already divergent yields
`zn = |z₀|²/threshold`, which can be arbitrarily large. -/
theorem kernels_count_bounds (ops : RealOps) (z c : Complex) (max_divergence : ℚ)
    (max_iter : Nat) (h : 1 ≤ max_iter) :
    (0 ≤ (julia z c max_divergence max_iter).2 ∧ (julia z c max_divergence max_iter).2 ≤ 1) ∧
    (0 ≤ (mandelbrot z max_iter).2 ∧ (mandelbrot z max_iter).2 ≤ 1) ∧
    (0 ≤ (iterated_sin_z ops z c max_iter).2 ∧ (iterated_sin_z ops z c max_iter).2 ≤ 1) ∧
    (0 ≤ (newton_raphson_z_3 ops z max_iter).2 ∧ (newton_raphson_z_3 ops z max_iter).2 ≤ 1) ∧
    (0 ≤ (newton_raphson_z_4 ops z max_iter).2 ∧ (newton_raphson_z_4 ops z max_iter).2 ≤ 1) ∧
    ((nova_newton_raphson_z_3 z max_iter).1 = 0 ∧
      0 ≤ (nova_newton_raphson_z_3 z max_iter).2 ∧
      (nova_newton_raphson_z_3 z max_iter).2 ≤ 1) ∧
    ((nova_newton_raphson_z_4 z max_iter).1 = 0 ∧
      0 ≤ (nova_newton_raphson_z_4 z max_iter).2 ∧
      (nova_newton_raphson_z_4 z max_iter).2 ≤ 1) ∧
    (0 < ops.pi → (∀ y x, -ops.pi ≤ ops.atan2 y x ∧ ops.atan2 y x ≤ ops.pi) →
      0 ≤ (newton_raphson_z_3 ops z max_iter).1 ∧
      (newton_raphson_z_3 ops z max_iter).1 ≤ 1) ∧
    (0 < ops.pi → (∀ y x, -ops.pi ≤ ops.atan2 y x ∧ ops.atan2 y x ≤ ops.pi) →
      0 ≤ (newton_raphson_z_4 ops z max_iter).1 ∧
      (newton_raphson_z_4 ops z max_iter).1 ≤ 1) := by
  refine ⟨?_, ?_, ?_, ?_, ?_, ?_, ?_, ?_, ?_⟩
  · rw [show (julia z c max_divergence max_iter).2 =
        (((runWhile (fun s : Complex × Nat => decide (s.1.arg_sq < max_divergence))
          (fun s : Complex × Nat => ((s.1.pow 2).add c, s.2 + 1)) max_iter (z, 0)).2 : Nat) : ℚ)
          / (max_iter : ℚ)
      from rfl]
    exact count_ratio_bounds _ max_iter (runWhile_pair_cnt_le _ _ max_iter z) h
  · rw [show (mandelbrot z max_iter).2 =
        (((runWhile (fun s : Complex × Nat => decide (s.1.arg_sq < 4))
          (fun s : Complex × Nat => ((s.1.pow 2).add z, s.2 + 1)) max_iter
          ((⟨0, 0⟩ : Complex), 0)).2 : Nat) : ℚ) / (max_iter : ℚ) from rfl]
    exact count_ratio_bounds _ max_iter (runWhile_pair_cnt_le _ _ max_iter ⟨0, 0⟩) h
  · rw [show (iterated_sin_z ops z c max_iter).2 =
        (((runWhile (fun s : Complex × Nat => decide (s.1.arg_sq < 50))
          (fun s : Complex × Nat => ((Complex.csin ops s.1).mul c, s.2 + 1)) max_iter
          (z, 0)).2 : Nat) : ℚ) / (max_iter : ℚ) from rfl]
    exact count_ratio_bounds _ max_iter (runWhile_pair_cnt_le _ _ max_iter z) h
  · rw [show (newton_raphson_z_3 ops z max_iter).2 =
        (((runWhile
          (fun s : Complex × Complex × Nat =>
            decide ((1 : ℚ) / 1000000 < (Complex.sub s.1 s.2.1).arg_sq))
          (fun s : Complex × Complex × Nat =>
            (s.1.sub (((s.1.pow 3).subF 1).div ((s.1.pow 2).mulF 3)), s.1, s.2.2 + 1))
          max_iter (z, (⟨0, 0⟩ : Complex), 0)).2.2 : Nat) : ℚ) / (max_iter : ℚ) from rfl]
    exact count_ratio_bounds _ max_iter (runWhile_triple_cnt_le _ _ _ max_iter z ⟨0, 0⟩) h
  · rw [show (newton_raphson_z_4 ops z max_iter).2 =
        (((runWhile
          (fun s : Complex × Complex × Nat =>
            decide ((1 : ℚ) / 1000000 < (Complex.sub s.1 s.2.1).arg_sq))
          (fun s : Complex × Complex × Nat =>
            (s.1.sub (((s.1.pow 4).subF 1).div ((s.1.pow 3).mulF 4)), s.1, s.2.2 + 1))
          max_iter (z, (⟨0, 0⟩ : Complex), 0)).2.2 : Nat) : ℚ) / (max_iter : ℚ) from rfl]
    exact count_ratio_bounds _ max_iter (runWhile_triple_cnt_le _ _ _ max_iter z ⟨0, 0⟩) h
  · refine ⟨rfl, ?_⟩
    rw [show (nova_newton_raphson_z_3 z max_iter).2 =
        (((runWhile
          (fun s : Complex × Complex × Nat =>
            decide ((1 : ℚ) / 1000000 < (Complex.sub s.1 s.2.1).arg_sq))
          (fun s : Complex × Complex × Nat =>
            ((z.add s.1).sub (((s.1.pow 3).subF 1).div ((s.1.pow 2).mulF 3)), s.1, s.2.2 + 1))
          max_iter ((⟨1, 0⟩ : Complex), (⟨0, 0⟩ : Complex), 0)).2.2 : Nat) : ℚ)
          / (max_iter : ℚ) from rfl]
    exact count_ratio_bounds _ max_iter (runWhile_triple_cnt_le _ _ _ max_iter ⟨1, 0⟩ ⟨0, 0⟩) h
  · refine ⟨rfl, ?_⟩
    rw [show (nova_newton_raphson_z_4 z max_iter).2 =
        (((runWhile
          (fun s : Complex × Complex × Nat =>
            decide ((1 : ℚ) / 1000000 < (Complex.sub s.1 s.2.1).arg_sq))
          (fun s : Complex × Complex × Nat =>
            ((z.add s.1).sub (((s.1.pow 4).subF 1).div ((s.1.pow 3).mulF 4)), s.1, s.2.2 + 1))
          max_iter ((⟨1, 0⟩ : Complex), (⟨0, 0⟩ : Complex), 0)).2.2 : Nat) : ℚ)
          / (max_iter : ℚ) from rfl]
    exact count_ratio_bounds _ max_iter (runWhile_triple_cnt_le _ _ _ max_iter ⟨1, 0⟩ ⟨0, 0⟩) h
  · intro hpi hrange
    rw [show (newton_raphson_z_3 ops z max_iter).1 =
        1 / 2 + Complex.arg ops ((runWhile
          (fun s : Complex × Complex × Nat =>
            decide ((1 : ℚ) / 1000000 < (Complex.sub s.1 s.2.1).arg_sq))
          (fun s : Complex × Complex × Nat =>
            (s.1.sub (((s.1.pow 3).subF 1).div ((s.1.pow 2).mulF 3)), s.1, s.2.2 + 1))
          max_iter ((z, (⟨0, 0⟩ : Complex), 0) : Complex × Complex × Nat)).1) / (2 * ops.pi)
      from rfl]
    exact newton_zn_bounds _ ops.pi hpi (hrange _ _).1 (hrange _ _).2
  · intro hpi hrange
    rw [show (newton_raphson_z_4 ops z max_iter).1 =
        1 / 2 + Complex.arg ops ((runWhile
          (fun s : Complex × Complex × Nat =>
            decide ((1 : ℚ) / 1000000 < (Complex.sub s.1 s.2.1).arg_sq))
          (fun s : Complex × Complex × Nat =>
            (s.1.sub (((s.1.pow 4).subF 1).div ((s.1.pow 3).mulF 4)), s.1, s.2.2 + 1))
          max_iter ((z, (⟨0, 0⟩ : Complex), 0) : Complex × Complex × Nat)).1) / (2 * ops.pi)
      from rfl]
    exact newton_zn_bounds _ ops.pi hpi (hrange _ _).1 (hrange _ _).2

/-- Witness for C5's theorem: the count bound at a trivial interpretation,
and the Newton `zn ∈ [0, 1]` bound at an interpretation with `π = 1` and
`atan2 = 0`, which satisfies the range hypotheses. -/
theorem kernels_count_bounds_witness :
    (0 ≤ (julia ⟨0, 0⟩ ⟨1, 1⟩ 4 1).2 ∧ (julia ⟨0, 0⟩ ⟨1, 1⟩ 4 1).2 ≤ 1) ∧
    (0 ≤ (newton_raphson_z_3 opsOne ⟨0, 0⟩ 1).1 ∧
      (newton_raphson_z_3 opsOne ⟨0, 0⟩ 1).1 ≤ 1) :=
  ⟨(kernels_count_bounds opsOne ⟨0, 0⟩ ⟨1, 1⟩ 4 1 (by norm_num)).1,
   (kernels_count_bounds opsOne ⟨0, 0⟩ ⟨1, 1⟩ 4 1 (by norm_num)).2.2.2.2.2.2.2.1
     (by norm_num [opsOne])
     (by intro y x; constructor <;> norm_num [opsOne])⟩

/-- Counterexample to C5 as stated: each of the three escape-time kernels
returns `zn > 1` at an already-divergent pixel — Julia with the
dispatcher's parameters (`c = (0.285, 0.013)`, threshold 4, `max_iter = 64`)
returns `zn = 50` at the pixel `(10, 10)`, Mandelbrot returns `zn = 50` at
the same pixel, and IteratedSinZ returns `zn = 25` at `(0, 10)` (its guard
`|z|² < 50` fails before the body ever runs, for any interpretation of the
transcendental operations — here the trivial one). -/
theorem escape_kernels_zn_above_one_cex :
    ((julia ⟨10, 10⟩ ⟨285/1000, 13/1000⟩ 4 64).1 = 50 ∧
      ¬((julia ⟨10, 10⟩ ⟨285/1000, 13/1000⟩ 4 64).1 ≤ 1)) ∧
    ((mandelbrot ⟨10, 10⟩ 64).1 = 50 ∧
      ¬((mandelbrot ⟨10, 10⟩ 64).1 ≤ 1)) ∧
    ((iterated_sin_z opsZero ⟨0, 10⟩ ⟨1, 0⟩ 64).1 = 25 ∧
      ¬((iterated_sin_z opsZero ⟨0, 10⟩ ⟨1, 0⟩ 64).1 ≤ 1)) := by
  refine ⟨?_, ?_, ?_⟩
  · unfold julia
    rw [show (64 : Nat) = 63 + 1 from rfl, runWhile]
    norm_num [Complex.arg_sq]
  · simp only [mandelbrot]
    rw [show (64 : Nat) = 62 + 2 from rfl]
    rw [runWhile_two_steps (fun s : Complex × Nat => decide (s.1.arg_sq < 4))
      (fun s : Complex × Nat => ((s.1.pow 2).add ⟨10, 10⟩, s.2 + 1)) 62
      (((⟨0, 0⟩ : Complex), 0) : Complex × Nat) (((⟨10, 10⟩ : Complex), 1) : Complex × Nat)
      (by norm_num [Complex.arg_sq])
      (by norm_num [Complex.pow, Complex.powGo, Complex.mul, Complex.add])
      (by norm_num [Complex.arg_sq])]
    norm_num [Complex.arg_sq]
  · unfold iterated_sin_z
    rw [show (64 : Nat) = 63 + 1 from rfl, runWhile]
    norm_num [Complex.arg_sq]

/-- C9 (corrected): the `while` guard checks divergence *before* the first
iteration, so for the pixel `z = (10, 10)` the loop body never runs:
the kernel returns `count = 0` (not `1/64`) and `zn = |z₀|²/4 = 50`
(not `|z₁|²/4` for `z₁ = z₀² + c`). -/
theorem julia_pixel_ten_ten :
    julia ⟨10, 10⟩ ⟨285/1000, 13/1000⟩ 4 64 = (50, 0) := by
  unfold julia
  rw [show (64 : Nat) = 63 + 1 from rfl, runWhile]
  norm_num [Complex.arg_sq]

/-- Counterexample to C9 as stated: the returned `count` is not `1/64`. -/
theorem julia_pixel_ten_ten_cex :
    ¬((julia ⟨10, 10⟩ ⟨285/1000, 13/1000⟩ 4 64).2 = 1/64) := by
  unfold julia
  rw [show (64 : Nat) = 63 + 1 from rfl, runWhile]
  norm_num [Complex.arg_sq]

/-- C7 (confirmed): every `create_params_for_*` function produces exactly 16
tasks tiling `[−1.2, 1.2]²` in row-major 4×4 order — tile `i` sits at column
`i mod 4`, row `i div 4`, each `0.6×0.6` — with resolution 300×300,
`max_iteration = 64` and `id = U8Data{0, 16}`; the tiles cover the square
with no gap and their interiors are pairwise disjoint (exactly, since the
generator's arithmetic is exact over rationals). -/
theorem create_params_tiling :
    ∀ name : FractalName,
      (paramsFor name).length = 16 ∧
      (∀ i : Fin 16, (paramsFor name)[(i : Nat)]? = some (expectedTile name i)) ∧
      (∀ x y : ℚ, -(12/10) ≤ x → x ≤ 12/10 → -(12/10) ≤ y → y ≤ 12/10 →
        ∃ t ∈ paramsFor name, t.range.min.x ≤ x ∧ x ≤ t.range.max.x ∧
          t.range.min.y ≤ y ∧ y ≤ t.range.max.y) ∧
      (∀ i j : Fin 16, i ≠ j → ∀ x y : ℚ,
        ¬(insideInterior (expectedTile name i) x y ∧
          insideInterior (expectedTile name j) x y)) := by
  intro name
  refine ⟨?_, paramsFor_tiles name, ?_, ?_⟩
  · rw [show paramsFor name = create_params_for (descriptorFor name) from rfl,
      create_params_for_eq]
    rfl
  · intro x y hx1 hx2 hy1 hy2
    obtain ⟨mx, hmx1, hmx2⟩ := grid_index x hx1 hx2
    obtain ⟨my, hmy1, hmy2⟩ := grid_index y hy1 hy2
    have hmxlt := mx.isLt
    have hmylt := my.isLt
    have hibound : (my : Nat) * 4 + (mx : Nat) < 16 := by omega
    have hcol : ((my : Nat) * 4 + (mx : Nat)) % 4 = (mx : Nat) := by omega
    have hrow : ((my : Nat) * 4 + (mx : Nat)) / 4 = (my : Nat) := by omega
    refine ⟨expectedTile name ⟨(my : Nat) * 4 + (mx : Nat), hibound⟩,
      List.getElem?_mem (paramsFor_tiles name ⟨(my : Nat) * 4 + (mx : Nat), hibound⟩),
      ?_, ?_, ?_, ?_⟩
    · simp only [expectedTile]
      rw [hcol]
      exact hmx1
    · simp only [expectedTile]
      rw [hcol]
      exact hmx2
    · simp only [expectedTile]
      rw [hrow]
      exact hmy1
    · simp only [expectedTile]
      rw [hrow]
      exact hmy2
  · intro i j hij x y hcontra
    obtain ⟨hi, hj⟩ := hcontra
    simp only [insideInterior, expectedTile] at hi hj
    obtain ⟨hi1, hi2, hi3, hi4⟩ := hi
    obtain ⟨hj1, hj2, hj3, hj4⟩ := hj
    rcases fin16_ne_split i j hij with hd | hd
    · exact cells_disjoint _ _ hd x hi1 hi2 hj1 hj2
    · exact cells_disjoint _ _ hd y hi3 hi4 hj3 hj4

/-- Witness for C7's theorem: the Julia tile list covers the origin. -/
theorem create_params_tiling_witness :
    ∃ t ∈ paramsFor FractalName.Julia,
      t.range.min.x ≤ 0 ∧ (0 : ℚ) ≤ t.range.max.x ∧
      t.range.min.y ≤ 0 ∧ (0 : ℚ) ≤ t.range.max.y :=
  (create_params_tiling FractalName.Julia).2.2.1 0 0 (by norm_num) (by norm_num)
    (by norm_num) (by norm_num)

/-- C8 (confirmed): the worker walks a tile in scan order — pixel index `i`
is evaluated at `x = x_min + (i mod ny)·Δx`, `y = y_min + (i div ny)·Δy`
with `Δx = (x_max−x_min)/nx` and `Δy = (y_max−y_min)/ny`: both the modulus
and the division use `ny`, exactly as the embedded `get_datas`
implementations do. -/
theorem get_datas_scan_order (ops : RealOps) (c : Complex)
    (divergence_threshold_square : ℚ) (task : FragmentTask) (i : Nat)
    (h : i < task.resolution.nx * task.resolution.ny) :
    (Julia_get_datas c divergence_threshold_square task)[i]? =
      some ⟨(julia (scanPointSpec task i) c divergence_threshold_square
              task.max_iteration).1,
            (julia (scanPointSpec task i) c divergence_threshold_square
              task.max_iteration).2⟩ ∧
    (Mandelbrot_get_datas task)[i]? =
      some ⟨(mandelbrot (scanPointSpec task i) task.max_iteration).1,
            (mandelbrot (scanPointSpec task i) task.max_iteration).2⟩ ∧
    (IteratedSinZ_get_datas ops c task)[i]? =
      some ⟨(iterated_sin_z ops (scanPointSpec task i) c task.max_iteration).1,
            (iterated_sin_z ops (scanPointSpec task i) c task.max_iteration).2⟩ ∧
    (NewtonRaphsonZ3_get_datas ops task)[i]? =
      some ⟨(newton_raphson_z_3 ops (scanPointSpec task i) task.max_iteration).1,
            (newton_raphson_z_3 ops (scanPointSpec task i) task.max_iteration).2⟩ ∧
    (NewtonRaphsonZ4_get_datas ops task)[i]? =
      some ⟨(newton_raphson_z_4 ops (scanPointSpec task i) task.max_iteration).1,
            (newton_raphson_z_4 ops (scanPointSpec task i) task.max_iteration).2⟩ ∧
    (NovaNewtonRaphsonZ3_get_datas task)[i]? =
      some ⟨(nova_newton_raphson_z_3 (scanPointSpec task i) task.max_iteration).1,
            (nova_newton_raphson_z_3 (scanPointSpec task i) task.max_iteration).2⟩ ∧
    (NovaNewtonRaphsonZ4_get_datas task)[i]? =
      some ⟨(nova_newton_raphson_z_4 (scanPointSpec task i) task.max_iteration).1,
            (nova_newton_raphson_z_4 (scanPointSpec task i) task.max_iteration).2⟩ := by
  refine ⟨?_, ?_, ?_, ?_, ?_, ?_, ?_⟩
  · simp only [Julia_get_datas]
    rw [List.getElem?_map, List.getElem?_range h]
    rfl
  · simp only [Mandelbrot_get_datas]
    rw [List.getElem?_map, List.getElem?_range h]
    rfl
  · simp only [IteratedSinZ_get_datas]
    rw [List.getElem?_map, List.getElem?_range h]
    rfl
  · simp only [NewtonRaphsonZ3_get_datas]
    rw [List.getElem?_map, List.getElem?_range h]
    rfl
  · simp only [NewtonRaphsonZ4_get_datas]
    rw [List.getElem?_map, List.getElem?_range h]
    rfl
  · simp only [NovaNewtonRaphsonZ3_get_datas]
    rw [List.getElem?_map, List.getElem?_range h]
    rfl
  · simp only [NovaNewtonRaphsonZ4_get_datas]
    rw [List.getElem?_map, List.getElem?_range h]
    rfl

/-- Witness for C8's theorem on a concrete 1×1 task at pixel index 0. -/
theorem get_datas_scan_order_witness :
    (IteratedSinZ_get_datas opsZero ⟨1, 3/10⟩ sampleTask)[0]? =
      some ⟨(iterated_sin_z opsZero (scanPointSpec sampleTask 0) ⟨1, 3/10⟩
              sampleTask.max_iteration).1,
            (iterated_sin_z opsZero (scanPointSpec sampleTask 0) ⟨1, 3/10⟩
              sampleTask.max_iteration).2⟩ :=
  (get_datas_scan_order opsZero ⟨1, 3/10⟩ 4 sampleTask 0 (by decide)).2.2.1

end Frakt
